import Mathlib

/-
Verification of the ResellPut AI market assistant agents
(src/agents/base_agent.py, src/agents/price_suggestor.py,
 src/agents/chat_moderator.py, src/utils/data_processor.py).

Shallow embedding notes:
* Python floats are modelled as exact rationals (ℚ).  All the numeric
  constants of the source (0.05, 0.85, …) are decimal literals, embedded as
  the corresponding rationals.
* Loosely typed request mappings are modelled by `RawData` / `ModInput`,
  records of optional `PyVal` fields (a Python value that is either a number
  or a string); a missing key is `none`.
* `int(x)` (truncation toward zero) is `truncQ`; Python `round` (used by the
  spec's formula, not by the code) is `pyRound` (round-half-to-even).
* `x ** age_months` is embedded by `pyPow`, exact whenever the exponent is an
  integer; a non-integral float age produces an irrational power that ℚ
  cannot represent, so `pyPow` is only faithful on integral exponents (every
  claim below exercises integral ages only).
* The generation gateway (`BaseAgent._call_llm_with_retry` plus the JSON
  decoding step `extract_json`/`json.loads`) is modelled by its net outcome
  `GatewayOutcome`: either every attempt failed (`failure`) or some attempt
  returned a text whose JSON payload decodes to a `Json` value (`reply j`).
  A reply that is not decodable JSON raises `json.JSONDecodeError`, which the
  agents turn into the same `ValueError` path as any non-conforming decoded
  value, so its observable behaviour coincides with `reply j` for a `j`
  rejected by the response validator.
* The category price standard deviation used by the fraud detector is
  `pandas.Series.std()`, an irrational real in general; it enters the
  embedding as an explicit parameter `catStd : Option ℚ` (`none` models the
  NaN produced for a single-row category, whose comparisons are all false;
  a real standard deviation is always ≥ 0, which theorems take as a
  hypothesis).
* `uuid.uuid4()` values are externally supplied strings (parameter `u`).
* Wall-clock processing time is an externally supplied parameter `pt`.
-/

namespace ResellPut

/-- A loosely typed Python value appearing in a request mapping. -/
inductive PyVal where
  | num (q : ℚ)
  | str (s : String)
deriving Repr, DecidableEq

/-- A pricing request mapping (`data` in `PriceSuggestorAgent`); a field that
is absent from the mapping is `none`. -/
structure RawData where
  title : Option PyVal := none
  category : Option PyVal := none
  brand : Option PyVal := none
  condition : Option PyVal := none
  age_months : Option PyVal := none
  asking_price : Option PyVal := none
  location : Option PyVal := none
deriving Repr, DecidableEq

/-- Python exceptions that escape the embedded operations. -/
inductive PyErr where
  | keyError (field : String)
  | valueError (msg : String)
  | typeError
  | generationError
deriving Repr, DecidableEq

/-- Python `int()` on a float/rational: truncation toward zero. -/
def truncQ (q : ℚ) : ℤ :=
  if 0 ≤ q then ⌊q⌋ else -⌊-q⌋

/-- Python `round()` to an integer: round half to even.  This is the
operation named by the spec's fallback formula; the source itself truncates
with `int()`. -/
def pyRound (q : ℚ) : ℤ :=
  let f := ⌊q⌋
  let frac := q - f
  if frac < 1/2 then f
  else if 1/2 < frac then f + 1
  else if f % 2 = 0 then f else f + 1

/-- `base ** exponent` for a rational exponent; exact when the exponent is an
integer (`e.den = 1`).  Non-integral exponents give irrational reals in
Python, which ℚ cannot represent; no claim exercises them. -/
def pyPow (b : ℚ) (e : ℚ) : ℚ := b ^ e.num

/-- Python truthiness of a request value (`bool(x)`): `0`, `0.0` and the
empty string are falsy. -/
def pyTruthy : PyVal → Bool
  | .num q => q ≠ 0
  | .str s => s ≠ ""

/-- Elementwise pandas comparison `column == value` between a string cell and
a request value: a non-string request value never equals a string cell. -/
def pvEqStr (v : PyVal) (s : String) : Bool :=
  match v with
  | .str t => t = s
  | .num _ => false

/-- `self.depreciation_rates.get(category, 0.03)`; a non-string key falls
through to the default, like any absent dict key. -/
def depreciationRateOf (v : PyVal) : ℚ :=
  match v with
  | .str t =>
      if t = "Mobile" then 5/100
      else if t = "Laptop" then 4/100
      else if t = "Electronics" then 3/100
      else if t = "Camera" then 2/100
      else if t = "Fashion" then 8/100
      else if t = "Furniture" then 1/100
      else 3/100
  | .num _ => 3/100

/-- `self.brand_multipliers.get(brand, 1.0)` (the source dict's own
`'default'` entry maps to the same 1.0 as the lookup default, so it needs no
separate line here; it does matter for `brandInTable` below). -/
def brandMultiplierOf (v : PyVal) : ℚ :=
  match v with
  | .str t =>
      if t = "Apple" then 12/10
      else if t = "Samsung" then 11/10
      else if t = "Sony" then 11/10
      else if t = "Canon" then 11/10
      else if t = "Nike" then 105/100
      else if t = "Adidas" then 105/100
      else 1
  | .num _ => 1

/-- `self.location_multipliers.get(location, 1.0)`. -/
def locationMultiplierOf (v : PyVal) : ℚ :=
  match v with
  | .str t =>
      if t = "Mumbai" then 115/100
      else if t = "Delhi" then 110/100
      else if t = "Bangalore" then 112/100
      else if t = "Chennai" then 108/100
      else if t = "Pune" then 106/100
      else if t = "Hyderabad" then 104/100
      else 1
  | .num _ => 1

/-- `condition_multipliers.get(condition, 0.70)` from
`PriceSuggestorAgent._generate_fallback_pricing`. -/
def conditionMultiplierOf (v : PyVal) : ℚ :=
  match v with
  | .str t =>
      if t = "Like New" then 85/100
      else if t = "Good" then 70/100
      else if t = "Fair" then 55/100
      else 70/100
  | .num _ => 70/100

/-- Membership of the request's brand in `self.brand_multipliers`
(`_calculate_confidence_score` line `data['brand'] in self.brand_multipliers`;
note that `'default'` is a key). -/
def brandInTable (v : PyVal) : Bool :=
  match v with
  | .str s =>
      s = "Apple" ∨ s = "Samsung" ∨ s = "Sony" ∨ s = "Canon" ∨
        s = "Nike" ∨ s = "Adidas" ∨ s = "default"
  | .num _ => false

/-- `data['brand'] in ['Apple', 'Samsung']` from `_detect_fraud_indicators`. -/
def brandIsPremium (v : PyVal) : Bool :=
  match v with
  | .str s => s = "Apple" ∨ s = "Samsung"
  | .num _ => false

/-- `PriceSuggestorAgent._validate_input`: presence of the seven fields in
source order, then the type/value checks on `age_months`, `asking_price`
and `condition`. -/
def validate_input (d : RawData) : Except PyErr Unit :=
  if d.title = none then .error (.valueError "Missing required field: title")
  else if d.category = none then .error (.valueError "Missing required field: category")
  else if d.brand = none then .error (.valueError "Missing required field: brand")
  else if d.condition = none then .error (.valueError "Missing required field: condition")
  else if d.age_months = none then .error (.valueError "Missing required field: age_months")
  else if d.asking_price = none then .error (.valueError "Missing required field: asking_price")
  else if d.location = none then .error (.valueError "Missing required field: location")
  else match d.age_months with
  | some (.num age) =>
      if age < 0 then .error (.valueError "age_months must be a non-negative number")
      else match d.asking_price with
      | some (.num asking) =>
          if asking ≤ 0 then .error (.valueError "asking_price must be a positive number")
          else match d.condition with
          | some (.str s) =>
              if s = "Like New" ∨ s = "Good" ∨ s = "Fair" then .ok ()
              else .error (.valueError "condition must be one of: Like New, Good, Fair")
          | _ => .error (.valueError "condition must be one of: Like New, Good, Fair")
      | _ => .error (.valueError "asking_price must be a positive number")
  | _ => .error (.valueError "age_months must be a non-negative number")

/-! ### Market data (src/utils/data_processor.py) -/

/-- One row of the marketplace dataset (after `DataProcessor._clean_data`). -/
structure Item where
  category : String
  brand : String
  condition : String
  location : String
  age_months : ℚ
  asking_price : ℚ
deriving Repr, DecidableEq

/-- Mean of a pandas numeric column (callers only use it on a non-empty
selection). -/
def qListMean (l : List ℚ) : ℚ := l.sum / l.length

/-- Minimum of a non-empty pandas numeric column. -/
def qListMin : List ℚ → ℚ
  | [] => 0
  | q :: qs => qs.foldl min q

/-- Maximum of a non-empty pandas numeric column. -/
def qListMax : List ℚ → ℚ
  | [] => 0
  | q :: qs => qs.foldl max q

/-- `DataProcessor.find_similar_products(category, brand, age_months,
age_tolerance=12)`: filter on `(category, brand)`; keep only rows within the
age tolerance unless that would empty the selection; if the `(category,
brand)` selection is empty, fall back to a category-only match. -/
def find_similar_products (df : List Item) (category brand : PyVal)
    (age : ℚ) (tol : ℚ) : List Item :=
  let similar := df.filter fun i => pvEqStr category i.category && pvEqStr brand i.brand
  let similar :=
    if similar ≠ [] ∧ tol > 0 then
      let ageFiltered := similar.filter fun i => decide (|i.age_months - age| ≤ tol)
      if ageFiltered ≠ [] then ageFiltered else similar
    else similar
  if similar = [] then df.filter (fun i => pvEqStr category i.category) else similar

/-- The transient market-analysis snapshot built by
`PriceSuggestorAgent._analyze_market`. -/
structure MarketAnalysis where
  similar_items : List Item
  avg_price : ℚ
  min_price : ℚ
  max_price : ℚ
  depreciation_rate : ℚ
  brand_multiplier : ℚ
  location_multiplier : ℚ
deriving Repr, DecidableEq

/-- `PriceSuggestorAgent._analyze_market` (on a loaded dataset; its defensive
`except` branch is unreachable in the embedding because every step below is
total). -/
def analyze_market (df : List Item) (category brand location : PyVal)
    (age asking : ℚ) : MarketAnalysis :=
  let similar := find_similar_products df category brand age 12
  let similar :=
    if similar = [] then df.filter (fun i => pvEqStr category i.category) else similar
  let prices := similar.map (·.asking_price)
  { similar_items := similar
    avg_price := if similar = [] then asking else qListMean prices
    min_price := if similar = [] then asking * (8/10) else qListMin prices
    max_price := if similar = [] then asking * (12/10) else qListMax prices
    depreciation_rate := depreciationRateOf category * 100
    brand_multiplier := brandMultiplierOf brand
    location_multiplier := locationMultiplierOf location }

/-! ### Fraud detection (`PriceSuggestorAgent._detect_fraud_indicators`) -/

/-- The five triggering conditions of `_detect_fraud_indicators`, in source
order.  The catch-all arm models the defensive `except`: a missing field
(`KeyError`) or a `TypeError` in one of the ordered comparisons discards
every accumulated indicator, which is observationally the all-false vector.
A string age always raises at `age_months > 120`; a string price raises
either at the market comparison (when the category selection is non-empty)
or at `asking_price < 5000` (when the brand is premium, via the
short-circuit `and`) — but when neither applies, Python evaluates the two
age conditions normally, which the string-price arm reproduces. -/
def fraudFlags (df : List Item) (catStd : Option ℚ) (d : RawData) :
    Bool × Bool × Bool × Bool × Bool :=
  match d.asking_price, d.age_months, d.category, d.brand, d.condition with
  | some askV, some (.num age), some cat, some brand, some cond =>
      let items := df.filter fun i => pvEqStr cat i.category
      let hasMarket := !items.isEmpty
      let avg := qListMean (items.map (·.asking_price))
      match askV with
      | .num asking =>
          let b1 := hasMarket && (match catStd with
            | some σ => decide (asking < avg - 2 * σ)
            | none => false)
          let b2 := hasMarket && (match catStd with
            | some σ => decide (asking > avg + 3 * σ)
            | none => false)
          let b3 := decide (age > 120)
          let b4 := brandIsPremium brand && decide (asking < 5000)
          let b5 := pvEqStr cond "Like New" && decide (age > 36)
          (b1, b2, b3, b4, b5)
      | .str _ =>
          if hasMarket || brandIsPremium brand then (false, false, false, false, false)
          else (false, false, decide (age > 120), false,
            pvEqStr cond "Like New" && decide (age > 36))
  | _, _, _, _, _ => (false, false, false, false, false)

/-- The additively accumulated fraud score, before the final clamp. -/
def rawFraudScore (f : Bool × Bool × Bool × Bool × Bool) : ℚ :=
  (if f.1 then 3/10 else 0) + (if f.2.1 then 2/10 else 0) +
    (if f.2.2.1 then 1/10 else 0) + (if f.2.2.2.1 then 4/10 else 0) +
    (if f.2.2.2.2 then 2/10 else 0)

/-- The i-th triggering condition of the flag vector, in source order. -/
def flagAt (f : Bool × Bool × Bool × Bool × Bool) : Fin 5 → Bool
  | 0 => f.1
  | 1 => f.2.1
  | 2 => f.2.2.1
  | 3 => f.2.2.2.1
  | 4 => f.2.2.2.2

/-- The fixed weight each triggering condition contributes (0.3, 0.2, 0.1,
0.4, 0.2 in source order). -/
def fraudWeight : Fin 5 → ℚ
  | 0 => 3/10
  | 1 => 2/10
  | 2 => 1/10
  | 3 => 4/10
  | 4 => 2/10

/-- The indicator strings appended alongside each triggered condition. -/
def fraudIndicatorsOf (f : Bool × Bool × Bool × Bool × Bool) : List String :=
  (if f.1 then ["Suspiciously low price compared to market average"] else []) ++
    (if f.2.1 then ["Significantly overpriced compared to market"] else []) ++
    (if f.2.2.1 then ["Unusually old product age"] else []) ++
    (if f.2.2.2.1 then ["Premium brand with suspiciously low price"] else []) ++
    (if f.2.2.2.2 then ["'Like New' condition inconsistent with age"] else [])

/-- The `fraud_analysis` payload. -/
structure FraudAnalysis where
  fraud_score : ℚ
  fraud_indicators : List String
  risk_level : String
deriving Repr, DecidableEq

/-- `PriceSuggestorAgent._detect_fraud_indicators`: the returned score is
clamped with `min(fraud_score, 1.0)`, while `risk_level` branches on the
unclamped accumulator. -/
def detect_fraud_indicators (df : List Item) (catStd : Option ℚ) (d : RawData) :
    FraudAnalysis :=
  let f := fraudFlags df catStd d
  let raw := rawFraudScore f
  { fraud_score := min raw 1
    fraud_indicators := fraudIndicatorsOf f
    risk_level := if raw > 6/10 then "high" else if raw > 3/10 then "medium" else "low" }

/-! ### Confidence enhancement (`_calculate_confidence_score`) -/

/-- Are all seven request fields present and truthy
(`all(field in data and data[field] for field in required_fields)`)? -/
def allFieldsTruthy (d : RawData) : Bool :=
  (match d.title with | some v => pyTruthy v | none => false) &&
  (match d.category with | some v => pyTruthy v | none => false) &&
  (match d.brand with | some v => pyTruthy v | none => false) &&
  (match d.condition with | some v => pyTruthy v | none => false) &&
  (match d.age_months with | some v => pyTruthy v | none => false) &&
  (match d.asking_price with | some v => pyTruthy v | none => false) &&
  (match d.location with | some v => pyTruthy v | none => false)

/-- `PriceSuggestorAgent._calculate_confidence_score`: base 0.5, additive
bonuses, clamped to 1.0.  The catch-all arm models the defensive `except`:
a missing brand (`KeyError`) or a missing/non-numeric age (`TypeError`)
returns the base 0.5. -/
def calculate_confidence_score (d : RawData) (ma : MarketAnalysis) : ℚ :=
  match d.brand, d.age_months with
  | some brand, some (.num age) =>
      min (1/2 +
        (if ma.similar_items.length > 10 then (3:ℚ)/10
          else if ma.similar_items.length > 5 then 2/10
          else if ma.similar_items.length > 0 then 1/10 else 0) +
        (if brandInTable brand then (1:ℚ)/10 else 0) +
        (if 0 ≤ age ∧ age ≤ 60 then (1:ℚ)/10 else 0) +
        (if allFieldsTruthy d then (1:ℚ)/10 else 0)) 1
  | _, _ => 1/2

/-! ### LLM replies and response parsing -/

/-- A decoded JSON value (the result of `json.loads` on the extracted
payload).  Python `json.loads` produces dicts with unique keys; an `obj`
with a duplicated key is read through its first binding and corresponds to
no decodable reply. -/
inductive Json where
  | null
  | bool (b : Bool)
  | num (q : ℚ)
  | str (s : String)
  | arr (elems : List Json)
  | obj (fields : List (String × Json))

/-- Dict field access / `in` test. -/
def jsonGet (fields : List (String × Json)) (k : String) : Option Json :=
  fields.lookup k

/-- The validated payload of a pricing reply.  `min`/`max` inside
`suggested_price_range` are only checked for *presence*, so they stay
arbitrary `Json`; the same goes for `reasoning` and `recommendations`. -/
structure ParsedPrice where
  range_min : Json
  range_max : Json
  reasoning : Json
  confidence : ℚ
  market_position : String
  recommendations : Json

/-- `isinstance(confidence, (int, float)) and 0 <= confidence <= 1`.
Python booleans are `int`s valued 0/1, so `bool` passes the check too. -/
def confidenceValue : Json → Option ℚ
  | .num q => if 0 ≤ q ∧ q ≤ 1 then some q else none
  | .bool b => some (if b then 1 else 0)
  | _ => none

/-- `PriceSuggestorAgent._parse_response` on a decoded reply: the five
required fields, the `min`/`max` presence check on the price range, the
confidence bound, and the `market_position` enum.  A non-dict decoded value
fails the field lookups and raises, caught into `ValueError`. -/
def parse_price_response (j : Json) : Except PyErr ParsedPrice :=
  match j with
  | .obj fields =>
      match jsonGet fields "suggested_price_range", jsonGet fields "reasoning",
          jsonGet fields "confidence", jsonGet fields "market_position",
          jsonGet fields "recommendations" with
      | some pr, some reasoning, some conf, some pos, some recs =>
          match pr with
          | .obj prFields =>
              match jsonGet prFields "min", jsonGet prFields "max" with
              | some mn, some mx =>
                  match confidenceValue conf with
                  | some c =>
                      match pos with
                      | .str p =>
                          if p = "underpriced" ∨ p = "fairly_priced" ∨ p = "overpriced" then
                            .ok { range_min := mn, range_max := mx, reasoning := reasoning
                                  confidence := c, market_position := p
                                  recommendations := recs }
                          else .error (.valueError "market_position must be one of: underpriced, fairly_priced, overpriced")
                      | _ => .error (.valueError "market_position must be one of: underpriced, fairly_priced, overpriced")
                  | none => .error (.valueError "Confidence must be between 0 and 1")
              | _, _ => .error (.valueError "Invalid price range structure")
          | _ => .error (.valueError "Invalid price range structure")
      | _, _, _, _, _ => .error (.valueError "Missing required field in response")
  | _ => .error (.valueError "Failed to parse response")

/-- Net outcome of `_call_llm_with_retry` followed by JSON decoding: either
every attempt failed (the last exception is re-raised), or some attempt
produced a text whose JSON payload decodes to `j`. -/
inductive GatewayOutcome where
  | failure
  | reply (j : Json)

/-! ### Agent statistics (src/agents/base_agent.py) -/

/-- The mutable counters owned by every agent instance. -/
structure AgentStats where
  execution_count : ℕ
  success_count : ℕ
  total_processing_time : ℚ
deriving Repr, DecidableEq

/-- Counters of a freshly constructed agent. -/
def initAgentStats : AgentStats := ⟨0, 0, 0⟩

/-- `BaseAgent._update_stats` (also the net stats effect of one
`BaseAgent.process` call, which increments `execution_count` on entry and
accumulates time on both exits). -/
def updateStats (st : AgentStats) (success : Bool) (pt : ℚ) : AgentStats :=
  { execution_count := st.execution_count + 1
    success_count := if success then st.success_count + 1 else st.success_count
    total_processing_time := st.total_processing_time + pt }

/-- `BaseAgent.success_rate`. -/
def success_rate (st : AgentStats) : ℚ :=
  if st.execution_count = 0 then 0 else (st.success_count : ℚ) / st.execution_count

/-- `BaseAgent.avg_processing_time`. -/
def avg_processing_time (st : AgentStats) : ℚ :=
  if st.execution_count = 0 then 0 else st.total_processing_time / st.execution_count

/-- Replay a sequence of `_update_stats` effects (one per `process` call). -/
def runStatUpdates : AgentStats → List (Bool × ℚ) → AgentStats
  | st, [] => st
  | st, (b, t) :: rest => runStatUpdates (updateStats st b t) rest

/-! ### Result records and metadata -/

/-- `metadata.execution_id`: the base pipeline stores the integer
`execution_count`, while `PriceSuggestorAgent.process` stores
`str(uuid.uuid4())`. -/
inductive ExecId where
  | fromCount (n : ℕ)
  | fromUuid (s : String)
deriving Repr, DecidableEq

/-- The `metadata` block attached to every returned result. -/
structure Metadata where
  processing_time : ℚ
  agent_type : String
  execution_id : ExecId
deriving Repr, DecidableEq

/-- A pricing result (`PriceSuggestorAgent.process` return value).  On the
LLM path `range_min`/`range_max`/`reasoning`/`recommendations` are whatever
`Json` the reply carried; the fallback paths store concrete values. -/
structure PriceResult where
  range_min : Json
  range_max : Json
  reasoning : Json
  confidence : ℚ
  market_position : String
  recommendations : Json
  fraud_analysis : Option FraudAnalysis
  metadata : Metadata

/-! ### Deterministic fallback pricing
(`PriceSuggestorAgent._generate_fallback_pricing`) -/

/-- The emergency price result shape shared by the two last-resort branches
(lines 286–300 and 454–468 of price_suggestor.py): range `asking × [0.8,
1.2]`, confidence 0.3, `fairly_priced`. -/
def emergencyResult (asking pt : ℚ) (u : String) (atype reason : String)
    (recs : List String) : PriceResult :=
  { range_min := .num ((truncQ (asking * (8/10)) : ℤ) : ℚ)
    range_max := .num ((truncQ (asking * (12/10)) : ℤ) : ℚ)
    reasoning := .str reason
    confidence := 3/10
    market_position := "fairly_priced"
    recommendations := .arr (recs.map .str)
    fraud_analysis := none
    metadata := ⟨pt, atype, .fromUuid u⟩ }

/-- `estimated_value` of `_generate_fallback_pricing`, multiplied in source
order: `asking × (1 − rate)^age × condition_mult × brand_mult × location_mult`. -/
def fallbackEstimate (cat br cond loc : PyVal) (age asking : ℚ) : ℚ :=
  asking * pyPow (1 - depreciationRateOf cat) age * conditionMultiplierOf cond *
    brandMultiplierOf br * locationMultiplierOf loc

/-- The fallback result built by the `try` block of
`_generate_fallback_pricing` from validated-shape fields.  The
`reasoning`/`recommendations` f-strings are abbreviated to fixed texts: no
claim inspects their contents, only their presence and types. -/
def fallbackResult (cat br cond loc : PyVal) (age asking pt : ℚ) (u : String) :
    PriceResult :=
  let estimated := fallbackEstimate cat br cond loc age asking
  let minPrice := truncQ (estimated * (85/100))
  let maxPrice := truncQ (estimated * (115/100))
  { range_min := .num (minPrice : ℚ)
    range_max := .num (maxPrice : ℚ)
    reasoning := .str "Based on mathematical analysis"
    confidence := 6/10
    market_position :=
      if asking < (minPrice : ℚ) then "underpriced"
      else if asking > (maxPrice : ℚ) then "overpriced"
      else "fairly_priced"
    recommendations := .arr [.str "Consider pricing in the suggested range",
      .str "Note: This is a basic estimate. Full AI analysis temporarily unavailable."]
    fraud_analysis := none
    metadata := ⟨pt, "price_suggestor_fallback", .fromUuid u⟩ }

/-- The `try` block of `_generate_fallback_pricing`: field reads in source
order (`asking_price`, `age_months`, `category`, `condition`, then `brand`
and `location` inside the `.get` calls; a `KeyError` for the first missing
one), then numeric use of the age and the asking price (`TypeError` on a
string), then the depreciation arithmetic, the truncation to the ±15 %
range, and the market-position comparison. -/
def fallbackCore (d : RawData) (pt : ℚ) (u : String) : Except PyErr PriceResult :=
  match d.asking_price with
  | none => .error (.keyError "asking_price")
  | some askV =>
  match d.age_months with
  | none => .error (.keyError "age_months")
  | some ageV =>
  match d.category with
  | none => .error (.keyError "category")
  | some catV =>
  match d.condition with
  | none => .error (.keyError "condition")
  | some condV =>
  match d.brand with
  | none => .error (.keyError "brand")
  | some brandV =>
  match d.location with
  | none => .error (.keyError "location")
  | some locV =>
  match ageV with
  | .str _ => .error .typeError
  | .num age =>
  match askV with
  | .str _ => .error .typeError
  | .num asking => .ok (fallbackResult catV brandV condV locV age asking pt u)

/-- The spec's closed-form fallback lower bound (§8), parameterized by the
rounding operation so that the spec's `round` and the source's `int()` can
be compared: `rnd(asking × (1−rate)^age × condition_mult × brand_mult ×
location_mult × 0.85)`. -/
def specFallbackMin (rnd : ℚ → ℤ) (cat br cond loc : PyVal) (age asking : ℚ) : ℤ :=
  rnd (fallbackEstimate cat br cond loc age asking * (85/100))

/-- The spec's closed-form fallback upper bound: the same product × 1.15. -/
def specFallbackMax (rnd : ℚ → ℤ) (cat br cond loc : PyVal) (age asking : ℚ) : ℤ :=
  rnd (fallbackEstimate cat br cond loc age asking * (115/100))

/-- `_generate_fallback_pricing` with its own `except` handler: on any
failure of the core computation it builds the `price_suggestor_emergency`
result — which itself reads `data['asking_price']` and therefore raises when
that key is missing or non-numeric. -/
def generate_fallback_pricing (d : RawData) (pt : ℚ) (u : String) :
    Except PyErr PriceResult :=
  match fallbackCore d pt u with
  | .ok r => .ok r
  | .error _ =>
      match d.asking_price with
      | some (.num q) =>
          .ok (emergencyResult q pt u "price_suggestor_emergency"
            "Unable to perform detailed analysis. Showing basic range around your asking price."
            ["Please try again later for detailed AI analysis"])
      | some (.str _) => .error .typeError
      | none => .error (.keyError "asking_price")

/-! ### `PriceSuggestorAgent.process` -/

/-- Numeric value of a validated field (junk 0 on unvalidated data; only ever
read on the validated path). -/
def numOf (v : Option PyVal) : ℚ :=
  match v with
  | some (.num q) => q
  | _ => 0

/-- The post-parse enrichment of a successful LLM reply: fraud analysis,
re-computed market analysis, `confidence = max(parsed, enhanced)`, and the
metadata block with the uuid execution id. -/
def priceSuccessResult (df : List Item) (catStd : Option ℚ) (d : RawData)
    (p : ParsedPrice) (pt : ℚ) (u : String) : PriceResult :=
  let fraud := detect_fraud_indicators df catStd d
  let ma := analyze_market df (d.category.getD (.num 0)) (d.brand.getD (.num 0))
    (d.location.getD (.num 0)) (numOf d.age_months) (numOf d.asking_price)
  let enhanced := calculate_confidence_score d ma
  { range_min := p.range_min
    range_max := p.range_max
    reasoning := p.reasoning
    confidence := max p.confidence enhanced
    market_position := p.market_position
    recommendations := p.recommendations
    fraud_analysis := some fraud
    metadata := ⟨pt, "price_suggestor", .fromUuid u⟩ }

/-- The `except` branch of `PriceSuggestorAgent.process`: mathematical
fallback first, then the process-level emergency block — which again reads
`data['asking_price']` and raises out of `process` when it is missing or
non-numeric. -/
def priceFailurePath (d : RawData) (pt : ℚ) (u : String) :
    Except PyErr PriceResult :=
  match generate_fallback_pricing d pt u with
  | .ok r => .ok r
  | .error _ =>
      match d.asking_price with
      | some (.num q) =>
          .ok (emergencyResult q pt u "emergency_fallback"
            "AI analysis temporarily unavailable. Showing basic estimate based on your asking price."
            ["Our AI systems are being optimized. Try again in a few minutes for detailed analysis."])
      | some (.str _) => .error .typeError
      | none => .error (.keyError "asking_price")

/-- `PriceSuggestorAgent.process`: validate → prompt → retried generation →
parse → enrich, with `_update_stats(True, ·)` on the LLM path and
`_update_stats(False, ·)` followed by the fallback ladder on any failure.
The prompt construction is total on validated data and does not influence
the modelled outcome, so it is not represented. -/
def priceProcess (df : List Item) (catStd : Option ℚ) (d : RawData)
    (g : GatewayOutcome) (pt : ℚ) (u : String) (st : AgentStats) :
    Except PyErr PriceResult × AgentStats :=
  match validate_input d with
  | .ok _ =>
      match g with
      | .reply j =>
          match parse_price_response j with
          | .ok p => (.ok (priceSuccessResult df catStd d p pt u), updateStats st true pt)
          | .error _ => (priceFailurePath d pt u, updateStats st false pt)
      | .failure => (priceFailurePath d pt u, updateStats st false pt)
  | .error _ => (priceFailurePath d pt u, updateStats st false pt)

/-! ### Chat moderation (src/agents/chat_moderator.py) -/

/-- A moderation request mapping. -/
structure ModInput where
  message : Option PyVal := none
  context : Option PyVal := none
deriving Repr, DecidableEq

/-- Python `str.isspace`-style whitespace (the characters `str.strip` and
regex `\s` treat as space on ASCII text). -/
def isPySpace (c : Char) : Bool :=
  c = ' ' || c = '\t' || c = '\n' || c = '\r' || c = '\x0B' || c = '\x0C'

/-- Python `str.strip()` on ASCII text. -/
def pyStrip (s : String) : String :=
  ⟨(s.toList.dropWhile isPySpace).reverse.dropWhile isPySpace |>.reverse⟩

/-- `ChatModeratorAgent._validate_input`. -/
def validateMessage (m : ModInput) : Except PyErr Unit :=
  match m.message with
  | none => .error (.valueError "Missing required field: message")
  | some (.num _) => .error (.valueError "Message must be a string")
  | some (.str s) =>
      if (pyStrip s).length = 0 then .error (.valueError "Message cannot be empty")
      else if s.length > 1000 then .error (.valueError "Message too long (max 1000 characters)")
      else .ok ()

/-- A moderation result (`ChatModeratorAgent._parse_response` payload, plus
the metadata attached by `BaseAgent.process` on success). -/
structure ModResult where
  status : String
  reason : Json
  confidence : ℚ
  detected_elements : Json
  severity : String
  action_recommended : String
  metadata : Option Metadata := none

/-- `ChatModeratorAgent._parse_response`: the six required fields, the three
enums, the confidence bound, and the coercion of a non-list
`detected_elements` into a one-element list (Python stringifies the scalar;
the stringification itself is not modelled, no claim depends on it). -/
def parse_mod_response (j : Json) : Except PyErr ModResult :=
  match j with
  | .obj fields =>
      match jsonGet fields "status", jsonGet fields "reason",
          jsonGet fields "confidence", jsonGet fields "detected_elements",
          jsonGet fields "severity", jsonGet fields "action_recommended" with
      | some status, some reason, some conf, some de, some sev, some act =>
          match status with
          | .str st =>
              if st = "safe" ∨ st = "abusive" ∨ st = "phone_detected" ∨ st = "policy_violation" then
                match confidenceValue conf with
                | some c =>
                    match sev with
                    | .str sv =>
                        if sv = "low" ∨ sv = "medium" ∨ sv = "high" then
                          match act with
                          | .str a =>
                              if a = "none" ∨ a = "warn" ∨ a = "block" ∨ a = "review" then
                                let deList := match de with
                                  | .arr l => Json.arr l
                                  | other => Json.arr [other]
                                .ok { status := st, reason := reason, confidence := c
                                      detected_elements := deList, severity := sv
                                      action_recommended := a, metadata := none }
                              else .error (.valueError "action_recommended must be one of: none, warn, block, review")
                          | _ => .error (.valueError "action_recommended must be one of: none, warn, block, review")
                        else .error (.valueError "severity must be one of: low, medium, high")
                    | _ => .error (.valueError "severity must be one of: low, medium, high")
                | none => .error (.valueError "Confidence must be between 0 and 1")
              else .error (.valueError "status must be one of: safe, abusive, phone_detected, policy_violation")
          | _ => .error (.valueError "status must be one of: safe, abusive, phone_detected, policy_violation")
      | _, _, _, _, _, _ => .error (.valueError "Missing required field in response")
  | _ => .error (.valueError "Failed to parse response")

/-- `BaseAgent.process` as instantiated by `ChatModeratorAgent` (which
overrides none of the pipeline): increment `execution_count` on entry,
validate, call the gateway with retry, parse, and on success attach
`metadata{processing_time, agent_type, execution_id = execution_count}`;
every failure re-raises to the caller after accumulating processing time. -/
def moderationProcess (m : ModInput) (g : GatewayOutcome) (pt : ℚ)
    (st : AgentStats) : Except PyErr ModResult × AgentStats :=
  let st1 : AgentStats := { st with execution_count := st.execution_count + 1 }
  match validateMessage m with
  | .error e => (.error e, { st1 with total_processing_time := st1.total_processing_time + pt })
  | .ok _ =>
      match g with
      | .failure => (.error .generationError,
          { st1 with total_processing_time := st1.total_processing_time + pt })
      | .reply j =>
          match parse_mod_response j with
          | .error e => (.error e,
              { st1 with total_processing_time := st1.total_processing_time + pt })
          | .ok r =>
              (.ok { r with metadata := some ⟨pt, "ChatModeratorAgent", .fromCount st1.execution_count⟩ },
               { st1 with success_count := st1.success_count + 1
                          total_processing_time := st1.total_processing_time + pt })

/-- Replay a sequence of moderation `process` calls against one agent
instance. -/
def runModeration : AgentStats → List (ModInput × GatewayOutcome × ℚ) →
    List (Except PyErr ModResult) × AgentStats
  | st, [] => ([], st)
  | st, (m, g, pt) :: rest =>
      let step := moderationProcess m g pt st
      let next := runModeration step.2 rest
      (step.1 :: next.1, next.2)

/-! ### Moderation pre-analysis detectors -/

/-- Regex word characters (`\w` on ASCII text). -/
def isWordChar (c : Char) : Bool := c.isAlphanum || c = '_'

/-- `re.sub(r'[^\d\+\s-]', '', message)`: keep only digits, `+`, whitespace
and dashes. -/
def keepPhoneChar (c : Char) : Bool :=
  c.isDigit || c = '+' || isPySpace c || c = '-'

/-- `[\s-]`. -/
def isSepChar (c : Char) : Bool := isPySpace c || c = '-'

/-- Consume exactly `n` digits, returning the rest of the input. -/
def dropDigits : ℕ → List Char → Option (List Char)
  | 0, cs => some cs
  | _ + 1, [] => none
  | n + 1, c :: cs => if c.isDigit then dropDigits n cs else none

/-- `\b` after a word character: the next character must not be a word
character (or the input ends). -/
def atEndBoundary : List Char → Bool
  | [] => true
  | c :: _ => !isWordChar c

/-- `\b` immediately before a word character: the previous character (if
any) must not be a word character. -/
def noWordBefore : Option Char → Bool
  | none => true
  | some c => !isWordChar c

/-- `\b` immediately before a non-word character (such as `+`): the previous
character must be a word character. -/
def wordBefore : Option Char → Bool
  | none => false
  | some c => isWordChar c

/-- `\d{10}\b`. -/
def tenDigitsEnd (cs : List Char) : Bool :=
  match dropDigits 10 cs with
  | some rest => atEndBoundary rest
  | none => false

/-- `[\s-]?\d{10}\b` (both alternatives of the optional separator). -/
def after91 (cs : List Char) : Bool :=
  (match cs with
   | c :: rest => isSepChar c && tenDigitsEnd rest
   | [] => false) || tenDigitsEnd cs

/-- `r'\b\d{10}\b'` anchored at one position. -/
def patTen (prev : Option Char) (cs : List Char) : Bool :=
  noWordBefore prev && tenDigitsEnd cs

/-- `r'\b\+91[\s-]?\d{10}\b'` anchored at one position (a `\b` before the
non-word `+` requires a word character right before it). -/
def patPlus91 (prev : Option Char) (cs : List Char) : Bool :=
  wordBefore prev &&
    match cs with
    | '+' :: '9' :: '1' :: rest => after91 rest
    | _ => false

/-- `r'\b91[\s-]?\d{10}\b'` anchored at one position. -/
def pat91 (prev : Option Char) (cs : List Char) : Bool :=
  noWordBefore prev &&
    match cs with
    | '9' :: '1' :: rest => after91 rest
    | _ => false

/-- `r'\b\d{3}[\s-]\d{3}[\s-]\d{4}\b'` anchored at one position. -/
def patTriple (prev : Option Char) (cs : List Char) : Bool :=
  noWordBefore prev &&
    match dropDigits 3 cs with
    | some (s1 :: r1) =>
        isSepChar s1 &&
          match dropDigits 3 r1 with
          | some (s2 :: r2) =>
              isSepChar s2 &&
                match dropDigits 4 r2 with
                | some rest => atEndBoundary rest
                | none => false
          | _ => false
    | _ => false

/-- `r'\b\d{5}[\s-]\d{5}\b'` anchored at one position. -/
def patFive (prev : Option Char) (cs : List Char) : Bool :=
  noWordBefore prev &&
    match dropDigits 5 cs with
    | some (s1 :: r1) =>
        isSepChar s1 &&
          match dropDigits 5 r1 with
          | some rest => atEndBoundary rest
          | none => false
    | _ => false

/-- `re.search`: try the anchored pattern at every position, tracking the
preceding character for the word-boundary tests. -/
def reSearch (f : Option Char → List Char → Bool) :
    Option Char → List Char → Bool
  | prev, [] => f prev []
  | prev, c :: cs => f prev (c :: cs) || reSearch f (some c) cs

/-- `ChatModeratorAgent._detect_phone_number`. -/
def detect_phone_number (s : String) : Bool :=
  let cleaned := s.toList.filter keepPhoneChar
  reSearch patTen none cleaned || reSearch patPlus91 none cleaned ||
    reSearch pat91 none cleaned || reSearch patTriple none cleaned ||
    reSearch patFive none cleaned

/-- Does `needle` occur at the head of `hay`? -/
def beginsWith : List Char → List Char → Bool
  | [], _ => true
  | _ :: _, [] => false
  | a :: as, b :: bs => a == b && beginsWith as bs

/-- Python `needle in hay` on strings as character lists. -/
def containsSeq (needle : List Char) : List Char → Bool
  | [] => beginsWith needle []
  | c :: cs => beginsWith needle (c :: cs) || containsSeq needle cs

/-- `message.lower()` on ASCII text. -/
def lowerChars (s : String) : List Char := s.toList.map Char.toLower

/-- `self.abusive_keywords`. -/
def abusive_keywords : List String :=
  ["fraud", "scam", "cheat", "fake", "stupid", "idiot", "fool",
   "urgent", "hurry", "cash only", "advance payment", "western union",
   "money gram", "lottery", "winner", "congratulations", "selected"]

/-- `self.external_platforms`. -/
def external_platforms : List String :=
  ["whatsapp", "telegram", "facebook", "instagram", "email", "gmail",
   "yahoo", "hotmail", "call me", "text me", "dm me", "message me"]

/-- `ChatModeratorAgent._detect_abusive_content`. -/
def detect_abusive_content (s : String) : Bool :=
  abusive_keywords.any fun kw => containsSeq kw.toList (lowerChars s)

/-- `ChatModeratorAgent._detect_external_platforms`. -/
def detect_external_platforms (s : String) : Bool :=
  external_platforms.any fun kw => containsSeq kw.toList (lowerChars s)

/-! ### Result projections and concrete fixtures used by the theorems -/

/-- The suggested price range of a returned pricing result. -/
def priceRangeOf (r : Except PyErr PriceResult) : Option (Json × Json) :=
  r.toOption.map fun x => (x.range_min, x.range_max)

/-- The confidence of a returned pricing result. -/
def confidenceOf (r : Except PyErr PriceResult) : Option ℚ :=
  r.toOption.map (·.confidence)

/-- The execution id of a returned pricing result. -/
def priceExecIdOf (r : Except PyErr PriceResult) : Option ExecId :=
  r.toOption.map (·.metadata.execution_id)

/-- The execution ids carried by the successful results of a sequence of
moderation calls. -/
def collectExecIds (rs : List (Except PyErr ModResult)) : List ExecId :=
  rs.filterMap fun r => r.toOption.bind fun x => x.metadata.map (·.execution_id)

/-- A well-formed pricing request: the spec's running example
(`asking_price=35000, category=Mobile, brand=Apple, condition=Good,
age_months=24`, unknown location). -/
def req35k : RawData :=
  { title := some (.str "iPhone 12"), category := some (.str "Mobile"),
    brand := some (.str "Apple"), condition := some (.str "Good"),
    age_months := some (.num 24), asking_price := some (.num 35000),
    location := some (.str "X") }

/-- A well-formed pricing request on which `int()` and `round()` disagree:
the fallback estimate is `1001 × 0.55 = 550.55`, whose 85 % bound `467.9675`
truncates to 467 but rounds to 468. -/
def reqRound : RawData :=
  { title := some (.str "t"), category := some (.str "Toys"),
    brand := some (.str "X"), condition := some (.str "Fair"),
    age_months := some (.num 0), asking_price := some (.num 1001),
    location := some (.str "Z") }

/-- A well-formed reply whose price range is inverted (`min`=100 > `max`=50);
`_parse_response` checks only the presence of the two keys. -/
def replyMinAboveMax : Json :=
  .obj [("suggested_price_range", .obj [("min", .num 100), ("max", .num 50)]),
    ("reasoning", .str "r"), ("confidence", .num (1/2)),
    ("market_position", .str "fairly_priced"), ("recommendations", .arr [])]

/-- A well-formed reply carrying a very low parsed confidence (0.1). -/
def replyLowConfidence : Json :=
  .obj [("suggested_price_range", .obj [("min", .num 10), ("max", .num 20)]),
    ("reasoning", .str "r"), ("confidence", .num (1/10)),
    ("market_position", .str "underpriced"), ("recommendations", .arr [])]

/-- A well-formed moderation reply. -/
def modReplySafe : Json :=
  .obj [("status", .str "safe"), ("reason", .str "ok"), ("confidence", .num (9/10)),
    ("detected_elements", .arr []), ("severity", .str "low"),
    ("action_recommended", .str "none")]

/-- A valid moderation request. -/
def modReqOk : ModInput := { message := some (.str "Is this available?") }

/-- A dataset holding one `(Mobile, Apple)` listing that is 50 months older
than the query below (`find_similar_products` keeps it anyway). -/
def farItem : Item :=
  { category := "Mobile", brand := "Apple", condition := "Good",
    location := "Mumbai", age_months := 50, asking_price := 1000 }

/-- A `(Mobile, Apple)` listing within the 12-month tolerance of a 24-month
query. -/
def nearItem : Item :=
  { category := "Mobile", brand := "Apple", condition := "Good",
    location := "Delhi", age_months := 30, asking_price := 900 }

/-- `reqRound` aged to 130 months: it triggers exactly the "unusually old"
fraud condition (age > 120) and no other. -/
def reqOld : RawData :=
  { title := some (.str "t"), category := some (.str "Toys"),
    brand := some (.str "X"), condition := some (.str "Fair"),
    age_months := some (.num 130), asking_price := some (.num 1001),
    location := some (.str "Z") }

end ResellPut

namespace ResellPut

/-- C1: the spec requires `process` to return a populated result for every
input mapping, with an emergency path that "must never raise"; but the
emergency path itself reads `data['asking_price']`, so on a mapping missing
that key (here: the empty mapping, for which validation, the mathematical
fallback and both emergency blocks all fail in turn) `process` raises
`KeyError('asking_price')` instead of returning. -/
theorem c1_process_raises_on_missing_asking_price :
    (priceProcess [] none {} .failure 0 "u" initAgentStats).1
      = .error (.keyError "asking_price") := by
  rfl

/-! #### Shared helper lemmas -/

theorem priceRangeOf_ok (r : PriceResult) :
    priceRangeOf (.ok r) = some (r.range_min, r.range_max) := rfl

theorem confidenceOf_ok (r : PriceResult) :
    confidenceOf (.ok r) = some r.confidence := rfl

/-- With the gateway failing on every attempt, `process` always takes the
`except` branch, regardless of validation. -/
theorem priceProcess_gateway_failure (df : List Item) (catStd : Option ℚ)
    (d : RawData) (pt : ℚ) (u : String) (st : AgentStats) :
    priceProcess df catStd d .failure pt u st =
      (priceFailurePath d pt u, updateStats st false pt) := by
  cases hv : validate_input d <;> simp [priceProcess, hv]

/-- On a request carrying all six fields used by the fallback, with numeric
age and price, the `try` block of `_generate_fallback_pricing` succeeds with
the closed-form result. -/
theorem fallbackCore_fields {d : RawData} {cat br cond loc : PyVal}
    {age asking : ℚ} (pt : ℚ) (u : String)
    (hcat : d.category = some cat) (hbr : d.brand = some br)
    (hcond : d.condition = some cond) (hloc : d.location = some loc)
    (hage : d.age_months = some (.num age)) (hask : d.asking_price = some (.num asking)) :
    fallbackCore d pt u = .ok (fallbackResult cat br cond loc age asking pt u) := by
  simp only [fallbackCore, hask, hage, hcat, hcond, hbr, hloc]

/-- The same, lifted through the fallback ladder of `process`. -/
theorem priceFailurePath_fields {d : RawData} {cat br cond loc : PyVal}
    {age asking : ℚ} (pt : ℚ) (u : String)
    (hcat : d.category = some cat) (hbr : d.brand = some br)
    (hcond : d.condition = some cond) (hloc : d.location = some loc)
    (hage : d.age_months = some (.num age)) (hask : d.asking_price = some (.num asking)) :
    priceFailurePath d pt u = .ok (fallbackResult cat br cond loc age asking pt u) := by
  simp only [priceFailurePath, generate_fallback_pricing,
    fallbackCore_fields pt u hcat hbr hcond hloc hage hask]

/-- On a validated request with a reply whose parse succeeds, `process`
takes the LLM path. -/
theorem priceProcess_reply_ok {d : RawData} {j : Json} {p : ParsedPrice}
    (df : List Item) (catStd : Option ℚ) (pt : ℚ) (u : String) (st : AgentStats)
    (hv : validate_input d = .ok ()) (hp : parse_price_response j = .ok p) :
    priceProcess df catStd d (.reply j) pt u st =
      (.ok (priceSuccessResult df catStd d p pt u), updateStats st true pt) := by
  simp [priceProcess, hv, hp]

/-- A reply rejected by `_parse_response` sends `process` down the same
fallback ladder as a generation failure. -/
theorem priceProcess_reply_parse_error {d : RawData} {j : Json} {e : PyErr}
    (df : List Item) (catStd : Option ℚ) (pt : ℚ) (u : String) (st : AgentStats)
    (hv : validate_input d = .ok ()) (hp : parse_price_response j = .error e) :
    priceProcess df catStd d (.reply j) pt u st =
      (priceFailurePath d pt u, updateStats st false pt) := by
  simp [priceProcess, hv, hp]

/-- The value checks of `_validate_input` on the two numeric fields. -/
theorem validate_ok_numbers {d : RawData} {age asking : ℚ}
    (h : validate_input d = .ok ())
    (hage : d.age_months = some (.num age)) (hask : d.asking_price = some (.num asking)) :
    0 ≤ age ∧ 0 < asking := by
  unfold validate_input at h
  simp only [hage, hask] at h
  repeat' split at h
  all_goals simp_all

/-- The `isinstance`/bounds check on a reply confidence admits exactly the
values in `[0, 1]` (a Python bool counts as 0 or 1). -/
theorem confidenceValue_bounds {j : Json} {c : ℚ}
    (h : confidenceValue j = some c) : 0 ≤ c ∧ c ≤ 1 := by
  unfold confidenceValue at h
  repeat' split at h
  all_goals simp_all
  all_goals linarith

/-- A parse-accepted reply has its confidence within `[0, 1]` (the only
numeric bound `_parse_response` enforces). -/
theorem parse_price_confidence_bounds {j : Json} {p : ParsedPrice}
    (h : parse_price_response j = .ok p) : 0 ≤ p.confidence ∧ p.confidence ≤ 1 := by
  unfold parse_price_response at h
  repeat' split at h
  all_goals first
    | (injection h with h2
       subst h2
       exact confidenceValue_bounds (by assumption))
    | simp_all

/-- The enhanced confidence score starts at the 0.5 base, only gains
non-negative bonuses, and is clamped to 1 (its defensive `except` also
returns 0.5). -/
theorem calculate_confidence_score_bounds (d : RawData) (ma : MarketAnalysis) :
    1/2 ≤ calculate_confidence_score d ma ∧ calculate_confidence_score d ma ≤ 1 := by
  unfold calculate_confidence_score
  split
  · rename_i brand age hbx hax
    refine ⟨le_min ?_ (by norm_num), min_le_right _ _⟩
    have h1 : (0:ℚ) ≤ (if ma.similar_items.length > 10 then (3:ℚ)/10
        else if ma.similar_items.length > 5 then 2/10
        else if ma.similar_items.length > 0 then 1/10 else 0) := by
      split_ifs <;> norm_num
    have h2 : (0:ℚ) ≤ (if brandInTable brand then (1:ℚ)/10 else 0) := by
      split_ifs <;> norm_num
    have h3 : (0:ℚ) ≤ (if 0 ≤ age ∧ age ≤ 60 then (1:ℚ)/10 else 0) := by
      split_ifs <;> norm_num
    have h4 : (0:ℚ) ≤ (if allFieldsTruthy d then (1:ℚ)/10 else 0) := by
      split_ifs <;> norm_num
    linarith
  · norm_num

theorem depreciationRateOf_bounds (v : PyVal) :
    0 < depreciationRateOf v ∧ depreciationRateOf v < 1 := by
  cases v <;> simp only [depreciationRateOf] <;> (try split_ifs) <;> norm_num

theorem brandMultiplierOf_pos (v : PyVal) : 0 < brandMultiplierOf v := by
  cases v <;> simp only [brandMultiplierOf] <;> (try split_ifs) <;> norm_num

theorem locationMultiplierOf_pos (v : PyVal) : 0 < locationMultiplierOf v := by
  cases v <;> simp only [locationMultiplierOf] <;> (try split_ifs) <;> norm_num

theorem conditionMultiplierOf_pos (v : PyVal) : 0 < conditionMultiplierOf v := by
  cases v <;> simp only [conditionMultiplierOf] <;> (try split_ifs) <;> norm_num

/-- A positive asking price makes the fallback estimate positive: every
factor of the product is positive. -/
theorem fallbackEstimate_pos {asking : ℚ} (cat br cond loc : PyVal) (age : ℚ)
    (h : 0 < asking) : 0 < fallbackEstimate cat br cond loc age asking := by
  unfold fallbackEstimate pyPow
  have hr := depreciationRateOf_bounds cat
  have hm : (0:ℚ) < 1 - depreciationRateOf cat := by linarith [hr.2]
  exact mul_pos (mul_pos (mul_pos (mul_pos h (zpow_pos hm _))
    (conditionMultiplierOf_pos cond)) (brandMultiplierOf_pos br))
    (locationMultiplierOf_pos loc)

/-- On non-negative values, Python `int()` is the floor. -/
theorem truncQ_of_nonneg {q : ℚ} (h : 0 ≤ q) : truncQ q = ⌊q⌋ := by
  simp [truncQ, h]

/-- The parse of the inverted-range reply succeeds, carrying the inverted
bounds through unchanged. -/
theorem parse_replyMinAboveMax :
    parse_price_response replyMinAboveMax =
      .ok { range_min := .num 100, range_max := .num 50, reasoning := .str "r",
            confidence := 1/2, market_position := "fairly_priced",
            recommendations := .arr [] } := by
  simp [parse_price_response, replyMinAboveMax, jsonGet, confidenceValue, List.lookup]
  norm_num

theorem validate_req35k : validate_input req35k = .ok () := by
  unfold validate_input req35k; simp; norm_num

theorem validate_reqRound : validate_input reqRound = .ok () := by
  unfold validate_input reqRound; simp

/-! #### C2 -/

/-- C2 (counterexample): the claim computes the fallback bounds with
`round`, but the source truncates with `int()`.  On the valid request
`reqRound` (asking 1001, condition Fair, age 0, all defaults) the estimate
is 550.55, the 85 % bound is 467.9675, the code returns 467, and the claim's
`round` formula gives 468. -/
theorem c2_round_vs_trunc_counterexample :
    priceRangeOf (priceProcess [] none reqRound .failure 0 "u" initAgentStats).1 =
      some (.num ((467 : ℤ) : ℚ), .num ((633 : ℤ) : ℚ)) ∧
    specFallbackMin pyRound (.str "Toys") (.str "X") (.str "Fair") (.str "Z") 0 1001 = 468 ∧
    (467 : ℤ) ≠ 468 := by
  refine ⟨?_, ?_, by decide⟩
  · rw [priceProcess_gateway_failure]
    rw [@priceFailurePath_fields reqRound (.str "Toys") (.str "X") (.str "Fair")
      (.str "Z") 0 1001 0 "u" rfl rfl rfl rfl rfl rfl, priceRangeOf_ok]
    have hmin : truncQ (fallbackEstimate (.str "Toys") (.str "X") (.str "Fair") (.str "Z") 0 1001 * (85/100)) = 467 := by
      simp [fallbackEstimate, depreciationRateOf, brandMultiplierOf,
        conditionMultiplierOf, locationMultiplierOf, pyPow, Rat.num_ofNat]
      norm_num [truncQ]
    have hmax : truncQ (fallbackEstimate (.str "Toys") (.str "X") (.str "Fair") (.str "Z") 0 1001 * (115/100)) = 633 := by
      simp [fallbackEstimate, depreciationRateOf, brandMultiplierOf,
        conditionMultiplierOf, locationMultiplierOf, pyPow, Rat.num_ofNat]
      norm_num [truncQ]
    simp only [fallbackResult, hmin, hmax]
  · simp [specFallbackMin, fallbackEstimate, depreciationRateOf, brandMultiplierOf,
      conditionMultiplierOf, locationMultiplierOf, pyPow, Rat.num_ofNat]
    norm_num [pyRound]

/-- C2 (amended): for every valid pricing input carrying the listed fields,
when the gateway fails on every call the returned range is the closed-form
formula with *truncation toward zero* (`int()`) in place of the claim's
`round`: min = `int(asking × (1−rate)^age × cond_mult × brand_mult ×
loc_mult × 0.85)` and max = the same product × 1.15, with the fixed tables
and defaults as stated. -/
theorem c2_fallback_truncation_formula :
    ∀ (df : List Item) (catStd : Option ℚ) (d : RawData) (pt : ℚ) (u : String)
      (st : AgentStats) (cat br cond loc : PyVal) (age asking : ℚ),
      validate_input d = .ok () →
      d.category = some cat → d.brand = some br → d.condition = some cond →
      d.location = some loc → d.age_months = some (.num age) →
      d.asking_price = some (.num asking) →
      priceRangeOf (priceProcess df catStd d .failure pt u st).1 =
        some (.num (specFallbackMin truncQ cat br cond loc age asking : ℚ),
              .num (specFallbackMax truncQ cat br cond loc age asking : ℚ)) := by
  intro df catStd d pt u st cat br cond loc age asking _ hcat hbr hcond hloc hage hask
  rw [priceProcess_gateway_failure]
  simp only [priceFailurePath_fields pt u hcat hbr hcond hloc hage hask, priceRangeOf_ok]
  rfl

/-- C2 witness: the spec's running example (`asking_price=35000,
category=Mobile (rate 0.05), brand=Apple (1.2), condition=Good (0.70),
age_months=24`, default location) evaluates, bit for bit against the exact
rational formula, to the pair (7296, 9872). -/
theorem c2_fallback_truncation_formula_witness :
    priceRangeOf (priceProcess [] none req35k .failure 0 "u" initAgentStats).1 =
      some (.num ((7296 : ℤ) : ℚ), .num ((9872 : ℤ) : ℚ)) ∧
    specFallbackMin truncQ (.str "Mobile") (.str "Apple") (.str "Good") (.str "X") 24 35000 = 7296 ∧
    specFallbackMax truncQ (.str "Mobile") (.str "Apple") (.str "Good") (.str "X") 24 35000 = 9872 := by
  have hmin : specFallbackMin truncQ (.str "Mobile") (.str "Apple") (.str "Good") (.str "X") 24 35000 = 7296 := by
    simp [specFallbackMin, fallbackEstimate, depreciationRateOf, brandMultiplierOf,
      conditionMultiplierOf, locationMultiplierOf, pyPow, Rat.num_ofNat]
    norm_num [truncQ]
  have hmax : specFallbackMax truncQ (.str "Mobile") (.str "Apple") (.str "Good") (.str "X") 24 35000 = 9872 := by
    simp [specFallbackMax, fallbackEstimate, depreciationRateOf, brandMultiplierOf,
      conditionMultiplierOf, locationMultiplierOf, pyPow, Rat.num_ofNat]
    norm_num [truncQ]
  have h := c2_fallback_truncation_formula [] none req35k 0 "u" initAgentStats
    (.str "Mobile") (.str "Apple") (.str "Good") (.str "X") 24 35000
    validate_req35k rfl rfl rfl rfl rfl rfl
  rw [hmin, hmax] at h
  exact ⟨h, hmin, hmax⟩

/-! #### C3 -/

/-- C3 (counterexample): `_parse_response` checks only the *presence* of
`min` and `max`, so a well-formed JSON reply with an inverted range passes
through `process` unchanged: on the valid request `req35k` the returned
range is (100, 50), violating `min ≤ max`. -/
theorem c3_unvalidated_reply_counterexample :
    priceRangeOf (priceProcess [] none req35k (.reply replyMinAboveMax) 0 "u" initAgentStats).1 =
      some (.num 100, .num 50) ∧ ¬ ((100 : ℚ) ≤ 50) := by
  constructor
  · rw [priceProcess_reply_ok [] none 0 "u" initAgentStats validate_req35k
      parse_replyMinAboveMax]
    simp only [priceRangeOf_ok, priceSuccessResult]
  · norm_num

/-- C3 (amended): for every valid pricing input, when the gateway fails on
every call, the result satisfies `min ≤ max` with both bounds non-negative
integers and confidence 0.6 ∈ [0,1]; and for *every* gateway behaviour the
call returns normally (never raises) with confidence ∈ [0,1].  The claim's
further assertion that `min ≤ max` and integrality hold for arbitrary
well-formed replies is false (see the counterexample): the parsed bounds
pass through unvalidated. -/
theorem c3_process_invariants :
    ∀ (df : List Item) (catStd : Option ℚ) (d : RawData) (pt : ℚ) (u : String)
      (st : AgentStats) (cat br cond loc : PyVal) (age asking : ℚ),
      validate_input d = .ok () →
      d.category = some cat → d.brand = some br → d.condition = some cond →
      d.location = some loc → d.age_months = some (.num age) →
      d.asking_price = some (.num asking) →
      (∃ mn mx : ℤ,
        priceRangeOf (priceProcess df catStd d .failure pt u st).1 =
          some (.num (mn : ℚ), .num (mx : ℚ)) ∧ 0 ≤ mn ∧ mn ≤ mx) ∧
      confidenceOf (priceProcess df catStd d .failure pt u st).1 = some (6/10) ∧
      (∀ g : GatewayOutcome, ∃ r : PriceResult,
        (priceProcess df catStd d g pt u st).1 = .ok r ∧
          0 ≤ r.confidence ∧ r.confidence ≤ 1) := by
  intro df catStd d pt u st cat br cond loc age asking hv hcat hbr hcond hloc hage hask
  have hnum := validate_ok_numbers hv hage hask
  have hest := fallbackEstimate_pos cat br cond loc age hnum.2
  have h85 : (0:ℚ) ≤ fallbackEstimate cat br cond loc age asking * (85/100) := by positivity
  have h115 : (0:ℚ) ≤ fallbackEstimate cat br cond loc age asking * (115/100) := by positivity
  refine ⟨?_, ?_, ?_⟩
  · refine ⟨truncQ (fallbackEstimate cat br cond loc age asking * (85/100)),
      truncQ (fallbackEstimate cat br cond loc age asking * (115/100)), ?_, ?_, ?_⟩
    · rw [priceProcess_gateway_failure]
      simp only [priceFailurePath_fields pt u hcat hbr hcond hloc hage hask,
        priceRangeOf_ok, fallbackResult]
    · rw [truncQ_of_nonneg h85]
      exact Int.le_floor.mpr (by exact_mod_cast h85)
    · rw [truncQ_of_nonneg h85, truncQ_of_nonneg h115]
      refine Int.floor_le_floor ?_
      have := hest.le
      nlinarith
  · rw [priceProcess_gateway_failure]
    simp only [priceFailurePath_fields pt u hcat hbr hcond hloc hage hask,
      confidenceOf_ok, fallbackResult]
  · intro g
    cases g with
    | failure =>
        refine ⟨fallbackResult cat br cond loc age asking pt u, ?_, ?_, ?_⟩
        · rw [priceProcess_gateway_failure]
          simp only [priceFailurePath_fields pt u hcat hbr hcond hloc hage hask]
        · simp only [fallbackResult]; norm_num
        · simp only [fallbackResult]; norm_num
    | reply j =>
        cases hp : parse_price_response j with
        | error e =>
            refine ⟨fallbackResult cat br cond loc age asking pt u, ?_, ?_, ?_⟩
            · rw [priceProcess_reply_parse_error df catStd pt u st hv hp]
              simp only [priceFailurePath_fields pt u hcat hbr hcond hloc hage hask]
            · simp only [fallbackResult]; norm_num
            · simp only [fallbackResult]; norm_num
        | ok p =>
            have hpb := parse_price_confidence_bounds hp
            have hcb := calculate_confidence_score_bounds d
              (analyze_market df (d.category.getD (.num 0)) (d.brand.getD (.num 0))
                (d.location.getD (.num 0)) (numOf d.age_months) (numOf d.asking_price))
            refine ⟨priceSuccessResult df catStd d p pt u, ?_, ?_, ?_⟩
            · rw [priceProcess_reply_ok df catStd pt u st hv hp]
            · simp only [priceSuccessResult]
              exact le_trans (by linarith [hcb.1]) (le_max_right _ _)
            · simp only [priceSuccessResult]
              exact max_le hpb.2 hcb.2

/-- C3 witness: on the concrete valid request `req35k`, the always-failing
gateway yields confidence 0.6 and the inverted-range reply still returns
normally. -/
theorem c3_process_invariants_witness :
    confidenceOf (priceProcess [] none req35k .failure 0 "u" initAgentStats).1 = some (6/10) ∧
    (priceProcess [] none req35k (.reply replyMinAboveMax) 0 "u" initAgentStats).1.isOk = true := by
  have h := c3_process_invariants [] none req35k 0 "u" initAgentStats
    (.str "Mobile") (.str "Apple") (.str "Good") (.str "X") 24 35000
    validate_req35k rfl rfl rfl rfl rfl rfl
  refine ⟨h.2.1, ?_⟩
  obtain ⟨r, hr, -, -⟩ := h.2.2 (.reply replyMinAboveMax)
  rw [hr]
  rfl

/-! #### C10 -/

/-- The parse of the low-confidence reply. -/
theorem parse_replyLowConfidence :
    parse_price_response replyLowConfidence =
      .ok { range_min := .num 10, range_max := .num 20, reasoning := .str "r",
            confidence := 1/10, market_position := "underpriced",
            recommendations := .arr [] } := by
  simp [parse_price_response, replyLowConfidence, jsonGet, confidenceValue, List.lookup]
  norm_num

/-- C10: on every pricing `process` call whose reply parses, the returned
confidence is `max(parsed, enhanced)` where the enhanced score is at least
the 0.5 base (it only ever gains bonuses and its defensive `except` returns
0.5), so the returned confidence is at least 0.5 regardless of the reply's
own confidence. -/
theorem c10_confidence_floor :
    ∀ (df : List Item) (catStd : Option ℚ) (d : RawData) (j : Json)
      (p : ParsedPrice) (pt : ℚ) (u : String) (st : AgentStats),
      validate_input d = .ok () →
      parse_price_response j = .ok p →
      confidenceOf (priceProcess df catStd d (.reply j) pt u st).1 =
        some (max p.confidence (calculate_confidence_score d
          (analyze_market df (d.category.getD (.num 0)) (d.brand.getD (.num 0))
            (d.location.getD (.num 0)) (numOf d.age_months) (numOf d.asking_price)))) ∧
      1/2 ≤ calculate_confidence_score d
          (analyze_market df (d.category.getD (.num 0)) (d.brand.getD (.num 0))
            (d.location.getD (.num 0)) (numOf d.age_months) (numOf d.asking_price)) ∧
      1/2 ≤ max p.confidence (calculate_confidence_score d
          (analyze_market df (d.category.getD (.num 0)) (d.brand.getD (.num 0))
            (d.location.getD (.num 0)) (numOf d.age_months) (numOf d.asking_price))) := by
  intro df catStd d j p pt u st hv hp
  have hcb := calculate_confidence_score_bounds d
    (analyze_market df (d.category.getD (.num 0)) (d.brand.getD (.num 0))
      (d.location.getD (.num 0)) (numOf d.age_months) (numOf d.asking_price))
  refine ⟨?_, hcb.1, le_trans hcb.1 (le_max_right _ _)⟩
  rw [priceProcess_reply_ok df catStd pt u st hv hp]
  simp only [confidenceOf_ok, priceSuccessResult]

/-- C10 witness: `req35k` with a reply whose parsed confidence is 0.1: the
enhanced score is 0.8 (brand, age and completeness bonuses on an empty
dataset) and the caller receives 0.8, not 0.1. -/
theorem c10_confidence_floor_witness :
    confidenceOf (priceProcess [] none req35k (.reply replyLowConfidence) 0 "u"
      initAgentStats).1 = some (8/10) ∧
    (1:ℚ)/10 < 1/2 ∧ (1:ℚ)/2 ≤ 8/10 := by
  have h := c10_confidence_floor [] none req35k replyLowConfidence _ 0 "u"
    initAgentStats validate_req35k parse_replyLowConfidence
  have hS : calculate_confidence_score req35k
      (analyze_market [] (req35k.category.getD (.num 0)) (req35k.brand.getD (.num 0))
        (req35k.location.getD (.num 0)) (numOf req35k.age_months)
        (numOf req35k.asking_price)) = 8/10 := by
    simp [calculate_confidence_score, analyze_market, find_similar_products, req35k,
      brandInTable, allFieldsTruthy, pyTruthy, numOf, pvEqStr]
    norm_num
  rw [hS] at h
  refine ⟨?_, by norm_num, by norm_num⟩
  rw [h.1]
  norm_num

/-! #### C5 -/

/-- C5: the moderation agent runs the unmodified shared pipeline, so every
failure — validation error, generation failure after retry exhaustion, or
parse/validation error on the reply — propagates to the caller as that very
error, and no fallback verdict is produced; a result is returned only when
validation, generation and parsing all succeed. -/
theorem c5_moderation_propagates_failures :
    ∀ (m : ModInput) (g : GatewayOutcome) (pt : ℚ) (st : AgentStats),
      (moderationProcess m g pt st).1 =
        match validateMessage m, g with
        | .error e, _ => .error e
        | .ok _, .failure => .error .generationError
        | .ok _, .reply j =>
            match parse_mod_response j with
            | .error e => .error e
            | .ok r => .ok { r with metadata := some ⟨pt, "ChatModeratorAgent",
                .fromCount (st.execution_count + 1)⟩ } := by
  intro m g pt st
  cases hv : validateMessage m with
  | error e => cases g <;> simp [moderationProcess, hv]
  | ok _ =>
      cases g with
      | failure => simp [moderationProcess, hv]
      | reply j => cases hp : parse_mod_response j <;> simp [moderationProcess, hv, hp]

/-- C9: the four pre-analysis examples of the spec: a ten-digit message
triggers phone detection, "scam"/"hurry" trigger abuse detection, "whatsapp"
(and "dm me") triggers external-platform detection, and a plain inquiry
triggers none of the three detectors. -/
theorem c9_preanalysis_examples :
    detect_phone_number "Call me at 9876543210" = true ∧
    detect_abusive_content "This is a scam, hurry and pay advance" = true ∧
    detect_external_platforms "DM me on whatsapp" = true ∧
    detect_phone_number "Is this still available?" = false ∧
    detect_abusive_content "Is this still available?" = false ∧
    detect_external_platforms "Is this still available?" = false := by
  refine ⟨?_, ?_, ?_, ?_, ?_, ?_⟩ <;> decide

/-! #### C7 -/


theorem moderationProcess_exec (m : ModInput) (g : GatewayOutcome) (pt : ℚ)
    (st : AgentStats) :
    (moderationProcess m g pt st).2.execution_count = st.execution_count + 1 := by
  cases hv : validateMessage m with
  | error e => cases g <;> simp [moderationProcess, hv]
  | ok _ =>
      cases g with
      | failure => simp [moderationProcess, hv]
      | reply j => cases hp : parse_mod_response j <;> simp [moderationProcess, hv, hp]

theorem moderationProcess_ok_execId {m : ModInput} {g : GatewayOutcome} {pt : ℚ}
    {st : AgentStats} {r : ModResult}
    (h : (moderationProcess m g pt st).1 = .ok r) :
    r.metadata = some ⟨pt, "ChatModeratorAgent", .fromCount (st.execution_count + 1)⟩ := by
  unfold moderationProcess at h
  repeat' split at h
  all_goals simp_all
  subst h
  rfl

theorem runModeration_ids (st : AgentStats) (evs : List (ModInput × GatewayOutcome × ℚ)) :
    (∀ id ∈ collectExecIds (runModeration st evs).1,
      ∃ n, id = .fromCount n ∧ st.execution_count < n ∧
        n ≤ (runModeration st evs).2.execution_count) ∧
    (collectExecIds (runModeration st evs).1).Pairwise (· ≠ ·) ∧
    st.execution_count ≤ (runModeration st evs).2.execution_count := by
  induction evs generalizing st with
  | nil => simp [runModeration, collectExecIds]
  | cons ev rest ih =>
      obtain ⟨m, g, pt⟩ := ev
      have hstep := moderationProcess_exec m g pt st
      have ihs := ih (moderationProcess m g pt st).2
      cases hs : (moderationProcess m g pt st).1 with
      | error e =>
          have hcol : collectExecIds (runModeration st ((m, g, pt) :: rest)).1 =
              collectExecIds (runModeration (moderationProcess m g pt st).2 rest).1 := by
            simp [runModeration, collectExecIds, hs, List.filterMap_cons, Except.toOption]
          have hfin : (runModeration st ((m, g, pt) :: rest)).2 =
              (runModeration (moderationProcess m g pt st).2 rest).2 := by
            simp [runModeration]
          rw [hcol, hfin]
          refine ⟨?_, ihs.2.1, le_trans (by omega) ihs.2.2⟩
          intro id hid
          obtain ⟨n, hn, hlt, hle⟩ := ihs.1 id hid
          exact ⟨n, hn, by omega, hle⟩
      | ok r =>
          have hmeta := moderationProcess_ok_execId hs
          have hcol : collectExecIds (runModeration st ((m, g, pt) :: rest)).1 =
              .fromCount (st.execution_count + 1) ::
                collectExecIds (runModeration (moderationProcess m g pt st).2 rest).1 := by
            simp [runModeration, collectExecIds, hs, hmeta, List.filterMap_cons, Except.toOption]
          have hfin : (runModeration st ((m, g, pt) :: rest)).2 =
              (runModeration (moderationProcess m g pt st).2 rest).2 := by
            simp [runModeration]
          rw [hcol, hfin]
          have hexec : st.execution_count + 1 ≤
              (runModeration (moderationProcess m g pt st).2 rest).2.execution_count := by
            calc st.execution_count + 1 = (moderationProcess m g pt st).2.execution_count := hstep.symm
            _ ≤ _ := ihs.2.2
          refine ⟨?_, ?_, by omega⟩
          · intro id hid
            rcases List.mem_cons.mp hid with hid | hid
            · exact ⟨st.execution_count + 1, by simp [hid], by omega, hexec⟩
            · obtain ⟨n, hn, hlt, hle⟩ := ihs.1 id hid
              exact ⟨n, hn, by omega, hle⟩
          · rw [List.pairwise_cons]
            refine ⟨?_, ihs.2.1⟩
            intro id hid
            obtain ⟨n, hn, hlt, hle⟩ := ihs.1 id hid
            rw [hn]
            intro hcontra
            have : st.execution_count + 1 = n := ExecId.fromCount.inj hcontra
            omega

theorem fallbackCore_ok_execId {d : RawData} {pt : ℚ} {u : String} {r : PriceResult}
    (h : fallbackCore d pt u = .ok r) : r.metadata.execution_id = .fromUuid u := by
  unfold fallbackCore at h
  repeat' split at h
  all_goals first
    | (injection h with h2
       subst h2
       rfl)
    | simp_all

theorem generate_fallback_ok_execId {d : RawData} {pt : ℚ} {u : String} {r : PriceResult}
    (h : generate_fallback_pricing d pt u = .ok r) :
    r.metadata.execution_id = .fromUuid u := by
  unfold generate_fallback_pricing at h
  cases hc : fallbackCore d pt u with
  | ok r2 =>
      rw [hc] at h
      injection h with h2
      subst h2
      exact fallbackCore_ok_execId hc
  | error e =>
      rw [hc] at h
      repeat' split at h
      all_goals first
        | (injection h with h2
           subst h2
           rfl)
        | simp_all

theorem priceFailurePath_ok_execId {d : RawData} {pt : ℚ} {u : String} {r : PriceResult}
    (h : priceFailurePath d pt u = .ok r) : r.metadata.execution_id = .fromUuid u := by
  unfold priceFailurePath at h
  cases hc : generate_fallback_pricing d pt u with
  | ok r2 =>
      rw [hc] at h
      injection h with h2
      subst h2
      exact generate_fallback_ok_execId hc
  | error e =>
      rw [hc] at h
      repeat' split at h
      all_goals first
        | (injection h with h2
           subst h2
           rfl)
        | simp_all

theorem priceProcess_invalid {d : RawData} {e : PyErr}
    (df : List Item) (catStd : Option ℚ) (g : GatewayOutcome) (pt : ℚ) (u : String)
    (st : AgentStats) (hv : validate_input d = .error e) :
    priceProcess df catStd d g pt u st =
      (priceFailurePath d pt u, updateStats st false pt) := by
  cases g <;> simp [priceProcess, hv]

theorem priceProcess_ok_execId {df : List Item} {catStd : Option ℚ} {d : RawData}
    {g : GatewayOutcome} {pt : ℚ} {u : String} {st : AgentStats} {r : PriceResult}
    (h : (priceProcess df catStd d g pt u st).1 = .ok r) :
    r.metadata.execution_id = .fromUuid u := by
  cases hv : validate_input d with
  | error e =>
      rw [priceProcess_invalid df catStd g pt u st hv] at h
      exact priceFailurePath_ok_execId h
  | ok un =>
      cases un
      cases g with
      | failure =>
          rw [priceProcess_gateway_failure] at h
          exact priceFailurePath_ok_execId h
      | reply j =>
          cases hp : parse_price_response j with
          | error e =>
              rw [priceProcess_reply_parse_error df catStd pt u st hv hp] at h
              exact priceFailurePath_ok_execId h
          | ok p =>
              rw [priceProcess_reply_ok df catStd pt u st hv hp] at h
              injection h with h2
              subst h2
              rfl

theorem priceExecIdOf_ok (r : PriceResult) :
    priceExecIdOf (.ok r) = some r.metadata.execution_id := rfl

/-- C7 (counterexample): the price agent's overridden `process` attaches
`execution_id = str(uuid.uuid4())` — an externally generated string — never
the execution counter: after one call the counter is 1 but the result
carries the uuid, which is not `fromCount 1` (nor any counter value). -/
theorem c7_uuid_execution_id_counterexample :
    priceExecIdOf (priceProcess [] none req35k .failure 0 "u" initAgentStats).1 =
      some (.fromUuid "u") ∧
    (priceProcess [] none req35k .failure 0 "u" initAgentStats).2.execution_count = 1 ∧
    ExecId.fromUuid "u" ≠ ExecId.fromCount 1 := by
  refine ⟨?_, ?_, by simp⟩
  · rw [priceProcess_gateway_failure]
    rw [@priceFailurePath_fields req35k (.str "Mobile") (.str "Apple") (.str "Good")
      (.str "X") 24 35000 0 "u" rfl rfl rfl rfl rfl rfl]
    rfl
  · rw [priceProcess_gateway_failure]
    simp [updateStats, initAgentStats]

/-- C7 (amended): results produced through the shared base pipeline (the
moderation agent) carry `execution_id = execution_count` at that call, and
those ids are pairwise distinct within an instance's lifetime; the price
agent's overridden `process` instead stamps every result (LLM, fallback and
emergency paths alike) with the freshly generated uuid string, never the
counter. -/
theorem c7_execution_id_amended :
    (∀ (st : AgentStats) (evs : List (ModInput × GatewayOutcome × ℚ)),
      (∀ id ∈ collectExecIds (runModeration st evs).1,
        ∃ n, id = .fromCount n ∧ st.execution_count < n ∧
          n ≤ (runModeration st evs).2.execution_count) ∧
      (collectExecIds (runModeration st evs).1).Pairwise (· ≠ ·)) ∧
    (∀ (df : List Item) (catStd : Option ℚ) (d : RawData) (g : GatewayOutcome)
      (pt : ℚ) (u : String) (st : AgentStats) (r : PriceResult),
      (priceProcess df catStd d g pt u st).1 = .ok r →
      r.metadata.execution_id = .fromUuid u) ∧
    (∀ (m : ModInput) (g : GatewayOutcome) (pt : ℚ) (st : AgentStats) (r : ModResult),
      (moderationProcess m g pt st).1 = .ok r →
      r.metadata = some ⟨pt, "ChatModeratorAgent", .fromCount (st.execution_count + 1)⟩) :=
  ⟨fun st evs => ⟨(runModeration_ids st evs).1, (runModeration_ids st evs).2.1⟩,
   fun _ _ _ _ _ _ _ _ h => priceProcess_ok_execId h,
   fun _ _ _ _ _ h => moderationProcess_ok_execId h⟩

theorem validate_modReqOk : validateMessage modReqOk = .ok () := rfl

theorem parse_modReplySafe :
    parse_mod_response modReplySafe =
      .ok { status := "safe", reason := .str "ok", confidence := 9/10,
            detected_elements := .arr [], severity := "low",
            action_recommended := "none", metadata := none } := by
  simp [parse_mod_response, modReplySafe, jsonGet, confidenceValue, List.lookup]
  norm_num

/-- C7 witness: a successful pricing call carries its uuid (`"u7"`), and a
single successful moderation call against a fresh agent carries
`execution_id = 1`. -/
theorem c7_execution_id_amended_witness :
    priceExecIdOf (priceProcess [] none req35k (.reply replyLowConfidence) 0 "u7"
      initAgentStats).1 = some (.fromUuid "u7") ∧
    collectExecIds (runModeration initAgentStats
      [(modReqOk, .reply modReplySafe, 0)]).1 = [.fromCount 1] := by
  have hok : (priceProcess [] none req35k (.reply replyLowConfidence) 0 "u7"
      initAgentStats).1 = .ok (priceSuccessResult [] none req35k
        { range_min := .num 10, range_max := .num 20, reasoning := .str "r",
          confidence := 1/10, market_position := "underpriced",
          recommendations := .arr [] } 0 "u7") := by
    rw [priceProcess_reply_ok [] none 0 "u7" initAgentStats validate_req35k
      parse_replyLowConfidence]
  have hid := c7_execution_id_amended.2.1 [] none req35k (.reply replyLowConfidence)
    0 "u7" initAgentStats _ hok
  have hmod : (moderationProcess modReqOk (.reply modReplySafe) 0 initAgentStats).1 =
      .ok { status := "safe", reason := .str "ok", confidence := 9/10,
            detected_elements := .arr [], severity := "low",
            action_recommended := "none",
            metadata := some ⟨0, "ChatModeratorAgent", .fromCount 1⟩ } := by
    simp [moderationProcess, validate_modReqOk, parse_modReplySafe, initAgentStats]
  have hmeta := c7_execution_id_amended.2.2 modReqOk (.reply modReplySafe) 0
    initAgentStats _ hmod
  constructor
  · rw [hok, priceExecIdOf_ok, hid]
  · simp [runModeration, collectExecIds, hmod, List.filterMap_cons, Except.toOption]


/-! #### C8 -/



/-- Net effect of a sequence of `_update_stats` calls. -/
theorem runStatUpdates_spec (evs : List (Bool × ℚ)) :
    ∀ st : AgentStats,
    (runStatUpdates st evs).execution_count = st.execution_count + evs.length ∧
    (runStatUpdates st evs).success_count = st.success_count + (evs.filter (·.1)).length ∧
    (runStatUpdates st evs).total_processing_time =
      st.total_processing_time + (evs.map (·.2)).sum := by
  induction evs with
  | nil => intro st; simp [runStatUpdates]
  | cons ev rest ih =>
      intro st
      obtain ⟨b, t⟩ := ev
      obtain ⟨h1, h2, h3⟩ := ih (updateStats st b t)
      simp only [runStatUpdates]
      refine ⟨?_, ?_, ?_⟩
      · rw [h1]; simp [updateStats]; omega
      · rw [h2]; cases b <;> simp [updateStats, List.filter_cons] <;> omega
      · rw [h3]; simp [updateStats]; ring

theorem moderationProcess_stats (m : ModInput) (g : GatewayOutcome) (pt : ℚ)
    (st : AgentStats) :
    (moderationProcess m g pt st).2 =
      updateStats st ((moderationProcess m g pt st).1.isOk) pt := by
  cases hv : validateMessage m with
  | error e =>
      cases g <;> simp [moderationProcess, hv, updateStats, Except.isOk, Except.toBool]
  | ok _ =>
      cases g with
      | failure => simp [moderationProcess, hv, updateStats, Except.isOk, Except.toBool]
      | reply j =>
          cases hp : parse_mod_response j <;>
            simp [moderationProcess, hv, hp, updateStats, Except.isOk, Except.toBool]

theorem priceProcess_stats (df : List Item) (catStd : Option ℚ) (d : RawData)
    (g : GatewayOutcome) (pt : ℚ) (u : String) (st : AgentStats) :
    ∃ b, (priceProcess df catStd d g pt u st).2 = updateStats st b pt := by
  cases hv : validate_input d with
  | error e => exact ⟨false, by cases g <;> simp [priceProcess, hv]⟩
  | ok un =>
      cases un
      cases g with
      | failure => exact ⟨false, by simp [priceProcess, hv]⟩
      | reply j =>
          cases hp : parse_price_response j with
          | error e => exact ⟨false, by simp [priceProcess, hv, hp]⟩
          | ok p => exact ⟨true, by simp [priceProcess, hv, hp]⟩

/-- C8: after any sequence of N successful and M failed calls recorded by
`_update_stats` starting from a fresh agent, `execution_count = N+M`,
`success_count = N`, `success_rate = N/(N+M)` (0 when no executions) and
`avg_processing_time = total/(N+M)` (0 when no executions); one
`moderationProcess` call updates the stats exactly by `_update_stats` with
its own success bit, one `priceProcess` call does so with its internal
success bit (which records failure even when a fallback result is
returned), and every such update preserves `success_count ≤
execution_count`. -/
theorem c8_statistics :
    (∀ evs : List (Bool × ℚ),
      (runStatUpdates initAgentStats evs).execution_count = evs.length ∧
      (runStatUpdates initAgentStats evs).success_count = (evs.filter (·.1)).length ∧
      success_rate (runStatUpdates initAgentStats evs) =
        (if evs.length = 0 then 0
         else ((evs.filter (·.1)).length : ℚ) / evs.length) ∧
      avg_processing_time (runStatUpdates initAgentStats evs) =
        (if evs.length = 0 then 0
         else (runStatUpdates initAgentStats evs).total_processing_time / evs.length)) ∧
    (∀ (m : ModInput) (g : GatewayOutcome) (pt : ℚ) (st : AgentStats),
      (moderationProcess m g pt st).2 =
        updateStats st ((moderationProcess m g pt st).1.isOk) pt) ∧
    (∀ (df : List Item) (catStd : Option ℚ) (d : RawData) (g : GatewayOutcome)
      (pt : ℚ) (u : String) (st : AgentStats),
      ∃ b, (priceProcess df catStd d g pt u st).2 = updateStats st b pt) ∧
    (∀ (st : AgentStats) (b : Bool) (t : ℚ),
      st.success_count ≤ st.execution_count →
      (updateStats st b t).success_count ≤ (updateStats st b t).execution_count) := by
  refine ⟨?_, moderationProcess_stats, priceProcess_stats, ?_⟩
  · intro evs
    obtain ⟨h1, h2, h3⟩ := runStatUpdates_spec evs initAgentStats
    rw [show initAgentStats.execution_count = 0 from rfl, Nat.zero_add] at h1
    rw [show initAgentStats.success_count = 0 from rfl, Nat.zero_add] at h2
    refine ⟨h1, h2, ?_, ?_⟩
    · unfold success_rate
      rw [h1, h2]
    · unfold avg_processing_time
      rw [h1]
  · intro st b t h
    cases b <;> simp [updateStats] <;> omega

/-- C8 witness: one success then one failure gives counts (2, 1) and rate
1/2, and an update from a consistent state stays consistent. -/
theorem c8_statistics_witness :
    (runStatUpdates initAgentStats [(true, 1), (false, 2)]).execution_count = 2 ∧
    (runStatUpdates initAgentStats [(true, 1), (false, 2)]).success_count = 1 ∧
    success_rate (runStatUpdates initAgentStats [(true, 1), (false, 2)]) = 1/2 ∧
    (updateStats ⟨2, 1, 3⟩ false 0).success_count ≤
      (updateStats ⟨2, 1, 3⟩ false 0).execution_count := by
  have h1 := (c8_statistics.1 [(true, 1), (false, 2)])
  refine ⟨h1.1, ?_, ?_, c8_statistics.2.2.2 ⟨2, 1, 3⟩ false 0 (by norm_num)⟩
  · rw [h1.2.1]; rfl
  · rw [h1.2.2.1]
    norm_num [List.filter]

/-! #### C4 -/



/-- The two price-versus-market conditions cannot both trigger when the
category standard deviation is a genuine (non-negative) standard deviation:
they would force `avg + 3σ < asking < avg − 2σ`. -/
theorem fraudFlags_not_both (df : List Item) (catStd : Option ℚ) (d : RawData)
    (hσ : ∀ σ, catStd = some σ → 0 ≤ σ) :
    ¬((fraudFlags df catStd d).1 = true ∧ (fraudFlags df catStd d).2.1 = true) := by
  obtain ⟨title, category, brand, condition, age_months, asking_price, location⟩ := d
  cases asking_price with
  | none => simp [fraudFlags]
  | some askV =>
  cases age_months with
  | none => simp [fraudFlags]
  | some ageV =>
  cases ageV with
  | str s => simp [fraudFlags]
  | num age =>
  cases category with
  | none => simp [fraudFlags]
  | some cat =>
  cases brand with
  | none => simp [fraudFlags]
  | some brand =>
  cases condition with
  | none => simp [fraudFlags]
  | some cond =>
  cases askV with
  | str s =>
      unfold fraudFlags
      dsimp only
      split <;> simp
  | num asking =>
  cases catStd with
  | none => simp [fraudFlags]
  | some σ =>
      have hσ0 := hσ σ rfl
      simp only [fraudFlags, Bool.and_eq_true, decide_eq_true_eq]
      rintro ⟨⟨-, h1⟩, ⟨-, h2⟩⟩
      linarith

theorem rawFraudScore_nonneg (f : Bool × Bool × Bool × Bool × Bool) :
    0 ≤ rawFraudScore f := by
  obtain ⟨b1, b2, b3, b4, b5⟩ := f
  cases b1 <;> cases b2 <;> cases b3 <;> cases b4 <;> cases b5 <;>
    simp [rawFraudScore] <;> norm_num

theorem rawFraudScore_le_one (f : Bool × Bool × Bool × Bool × Bool)
    (h : ¬(f.1 = true ∧ f.2.1 = true)) : rawFraudScore f ≤ 1 := by
  obtain ⟨b1, b2, b3, b4, b5⟩ := f
  cases b1 <;> cases b2 <;> cases b3 <;> cases b4 <;> cases b5 <;>
    simp_all [rawFraudScore] <;> norm_num

theorem fraudWeight_pos (i : Fin 5) : 0 < fraudWeight i := by
  fin_cases i <;> simp [fraudWeight]

/-- Adding exactly one triggering condition adds exactly its weight to the
unclamped accumulator. -/
theorem rawFraudScore_step (f g : Bool × Bool × Bool × Bool × Bool) (i : Fin 5)
    (hi' : flagAt g i = true) (hi : flagAt f i = false)
    (hj : ∀ j, j ≠ i → flagAt g j = flagAt f j) :
    rawFraudScore g = rawFraudScore f + fraudWeight i := by
  obtain ⟨b1, b2, b3, b4, b5⟩ := f
  obtain ⟨c1, c2, c3, c4, c5⟩ := g
  fin_cases i <;>
    [(have e1 := hj 1 (by decide); have e2 := hj 2 (by decide);
      have e3 := hj 3 (by decide); have e4 := hj 4 (by decide));
     (have e1 := hj 0 (by decide); have e2 := hj 2 (by decide);
      have e3 := hj 3 (by decide); have e4 := hj 4 (by decide));
     (have e1 := hj 0 (by decide); have e2 := hj 1 (by decide);
      have e3 := hj 3 (by decide); have e4 := hj 4 (by decide));
     (have e1 := hj 0 (by decide); have e2 := hj 1 (by decide);
      have e3 := hj 2 (by decide); have e4 := hj 4 (by decide));
     (have e1 := hj 0 (by decide); have e2 := hj 1 (by decide);
      have e3 := hj 2 (by decide); have e4 := hj 3 (by decide))] <;>
    simp_all [flagAt, fraudWeight, rawFraudScore] <;> ring

/-- C4: adding any one triggering condition (with genuine, non-negative
standard deviations on both sides) increases the returned fraud score by
exactly that condition's weight (0.3, 0.2, 0.1, 0.4, 0.2), strictly; the
returned score never exceeds 1.0 — the achievable accumulator maximum is
exactly 1.0, so the `min(·, 1)` clamp never distorts an increment; and
`risk_level` is high iff score > 0.6, medium iff 0.3 < score ≤ 0.6, else
low. -/
theorem c4_fraud_score_monotone :
    (∀ (df df' : List Item) (cs cs' : Option ℚ) (d d' : RawData) (i : Fin 5),
      (∀ σ, cs = some σ → 0 ≤ σ) → (∀ σ, cs' = some σ → 0 ≤ σ) →
      flagAt (fraudFlags df' cs' d') i = true →
      flagAt (fraudFlags df cs d) i = false →
      (∀ j, j ≠ i → flagAt (fraudFlags df' cs' d') j = flagAt (fraudFlags df cs d) j) →
      (detect_fraud_indicators df' cs' d').fraud_score =
        (detect_fraud_indicators df cs d).fraud_score + fraudWeight i ∧
      (detect_fraud_indicators df cs d).fraud_score <
        (detect_fraud_indicators df' cs' d').fraud_score ∧
      (detect_fraud_indicators df' cs' d').fraud_score ≤ 1) ∧
    (∀ (df : List Item) (cs : Option ℚ) (d : RawData),
      ((detect_fraud_indicators df cs d).risk_level = "high" ↔
        (detect_fraud_indicators df cs d).fraud_score > 6/10) ∧
      ((detect_fraud_indicators df cs d).risk_level = "medium" ↔
        (3/10 < (detect_fraud_indicators df cs d).fraud_score ∧
          (detect_fraud_indicators df cs d).fraud_score ≤ 6/10)) ∧
      ((detect_fraud_indicators df cs d).risk_level = "low" ↔
        (detect_fraud_indicators df cs d).fraud_score ≤ 3/10)) := by
  constructor
  · intro df df' cs cs' d d' i hσ hσ' hi' hi hj
    have hw := fraudWeight_pos i
    have hstep := rawFraudScore_step (fraudFlags df cs d) (fraudFlags df' cs' d') i hi' hi hj
    have hle' : rawFraudScore (fraudFlags df' cs' d') ≤ 1 :=
      rawFraudScore_le_one _ (fraudFlags_not_both df' cs' d' hσ')
    have hle : rawFraudScore (fraudFlags df cs d) ≤ 1 := by
      rw [hstep] at hle'; linarith
    unfold detect_fraud_indicators
    simp only [min_eq_left hle, min_eq_left hle']
    exact ⟨hstep, by linarith, hle'⟩
  · intro df cs d
    have h0 := rawFraudScore_nonneg (fraudFlags df cs d)
    unfold detect_fraud_indicators
    simp only
    by_cases h6 : rawFraudScore (fraudFlags df cs d) > 6/10
    · rw [if_pos h6]
      refine ⟨?_, ?_, ?_⟩
      · simp only [true_iff, eq_self_iff_true]
        exact lt_min h6 (by norm_num)
      · constructor
        · intro hcontra; exact absurd hcontra (by decide)
        · rintro ⟨-, hle⟩
          rcases min_le_iff.mp hle with h | h
          · linarith
          · norm_num at h
      · constructor
        · intro hcontra; exact absurd hcontra (by decide)
        · intro hle
          rcases min_le_iff.mp hle with h | h
          · linarith
          · norm_num at h
    · rw [if_neg h6]
      push_neg at h6
      by_cases h3 : rawFraudScore (fraudFlags df cs d) > 3/10
      · rw [if_pos h3]
        refine ⟨?_, ?_, ?_⟩
        · constructor
          · intro hcontra; exact absurd hcontra (by decide)
          · intro hgt
            have : min (rawFraudScore (fraudFlags df cs d)) 1 ≤ rawFraudScore (fraudFlags df cs d) := min_le_left _ _
            linarith
        · simp only [true_iff]
          exact ⟨lt_min h3 (by norm_num), le_trans (min_le_left _ _) h6⟩
        · constructor
          · intro hcontra; exact absurd hcontra (by decide)
          · intro hle
            rcases min_le_iff.mp hle with h | h
            · linarith
            · norm_num at h
      · rw [if_neg h3]
        push_neg at h3
        refine ⟨?_, ?_, ?_⟩
        · constructor
          · intro hcontra; exact absurd hcontra (by decide)
          · intro hgt
            have : min (rawFraudScore (fraudFlags df cs d)) 1 ≤ rawFraudScore (fraudFlags df cs d) := min_le_left _ _
            linarith
        · constructor
          · intro hcontra; exact absurd hcontra (by decide)
          · rintro ⟨hgt, -⟩
            have := lt_min_iff.mp hgt
            linarith [this.1]
        · simp only [true_iff]
          exact le_trans (min_le_left _ _) h3

theorem fraudFlags_reqRound :
    fraudFlags [] none reqRound = (false, false, false, false, false) := by
  simp [fraudFlags, reqRound, brandIsPremium, pvEqStr]

theorem fraudFlags_reqOld :
    fraudFlags [] none reqOld = (false, false, true, false, false) := by
  simp [fraudFlags, reqOld, brandIsPremium, pvEqStr]
  norm_num

/-- C4 witness: aging `reqRound` from 0 to 130 months adds exactly the
0.1-weight "unusually old" condition. -/
theorem c4_fraud_score_monotone_witness :
    (detect_fraud_indicators [] none reqOld).fraud_score =
      (detect_fraud_indicators [] none reqRound).fraud_score + fraudWeight 2 ∧
    (detect_fraud_indicators [] none reqOld).fraud_score ≤ 1 ∧
    fraudWeight 2 = 1/10 := by
  have h := c4_fraud_score_monotone.1 [] [] none none reqRound reqOld 2
    (by intro σ hσ; cases hσ) (by intro σ hσ; cases hσ)
    (by rw [fraudFlags_reqOld]; rfl)
    (by rw [fraudFlags_reqRound]; rfl)
    (by intro j hne
        rw [fraudFlags_reqOld, fraudFlags_reqRound]
        fin_cases j <;> simp_all [flagAt])
  exact ⟨h.1, h.2.2, rfl⟩

/-! #### C6 -/



/-- C6 (counterexample): when the `(category, brand)` selection is
non-empty but no row lies within the 12-month tolerance, the age filter is
*skipped* rather than applied: a 50-month-old listing is returned for an
age-0 query even though a `(category, brand)` match exists. -/
theorem c6_age_tolerance_counterexample :
    ([farItem].filter (fun i => pvEqStr (.str "Mobile") i.category &&
        pvEqStr (.str "Apple") i.brand) ≠ []) ∧
    farItem ∈ find_similar_products [farItem] (.str "Mobile") (.str "Apple") 0 12 ∧
    ¬(|farItem.age_months - 0| ≤ 12) := by
  refine ⟨by simp [farItem, pvEqStr], ?_, by simp [farItem]; norm_num⟩
  have h : find_similar_products [farItem] (.str "Mobile") (.str "Apple") 0 12 = [farItem] := by
    simp [find_similar_products, farItem, pvEqStr]
  rw [h]
  simp

/-- C6 (amended): `find_similar_products` filters on `(category, brand)`;
the 12-month age filter applies only when it leaves at least one row (if no
`(category, brand)` row is within tolerance, the whole `(category, brand)`
selection is returned); when the `(category, brand)` selection is empty it
relaxes to a category-only match; and when even the category has no rows,
`_analyze_market` synthesizes `avg = asking`, bounds `asking × [0.8, 1.2]`.
In particular, whenever some `(category, brand)` row lies within 12 months
of the requested age, every returned item does. -/
theorem c6_market_query_characterization :
    ∀ (df : List Item) (cat br loc : PyVal) (age asking : ℚ),
      (find_similar_products df cat br age 12 =
        (if df.filter (fun i => pvEqStr cat i.category && pvEqStr br i.brand) = [] then
          df.filter (fun i => pvEqStr cat i.category)
        else if (df.filter (fun i => pvEqStr cat i.category && pvEqStr br i.brand)).filter
            (fun i => decide (|i.age_months - age| ≤ 12)) = [] then
          df.filter (fun i => pvEqStr cat i.category && pvEqStr br i.brand)
        else (df.filter (fun i => pvEqStr cat i.category && pvEqStr br i.brand)).filter
            (fun i => decide (|i.age_months - age| ≤ 12)))) ∧
      ((∃ j ∈ df.filter (fun i => pvEqStr cat i.category && pvEqStr br i.brand),
          |j.age_months - age| ≤ 12) →
        ∀ i ∈ find_similar_products df cat br age 12, |i.age_months - age| ≤ 12) ∧
      (df.filter (fun i => pvEqStr cat i.category) = [] →
        analyze_market df cat br loc age asking =
          { similar_items := [], avg_price := asking, min_price := asking * (8/10),
            max_price := asking * (12/10),
            depreciation_rate := depreciationRateOf cat * 100,
            brand_multiplier := brandMultiplierOf br,
            location_multiplier := locationMultiplierOf loc }) := by
  intro df cat br loc age asking
  have hchar : ∀ CB CO : List Item, ∀ AF : List Item,
      df.filter (fun i => pvEqStr cat i.category && pvEqStr br i.brand) = CB →
      df.filter (fun i => pvEqStr cat i.category) = CO →
      CB.filter (fun i => decide (|i.age_months - age| ≤ 12)) = AF →
      find_similar_products df cat br age 12 =
        (if CB = [] then CO else if AF = [] then CB else AF) := by
    intro CB CO AF hCB hCO hAF
    unfold find_similar_products
    simp only [hCB, hCO, hAF]
    by_cases hcb : CB = []
    · simp [hcb]
    · by_cases haf : AF = []
      · simp [hcb, haf, show (0:ℚ) < 12 by norm_num]
      · simp [hcb, haf, show (0:ℚ) < 12 by norm_num]
  have hmain := hchar _ _ _ rfl rfl rfl
  refine ⟨hmain, ?_, ?_⟩
  · rintro ⟨j0, hj0mem, hj0close⟩ i hi
    rw [hmain] at hi
    by_cases hcb : df.filter (fun i => pvEqStr cat i.category && pvEqStr br i.brand) = []
    · rw [hcb] at hj0mem; cases hj0mem
    · have haf : (df.filter (fun i => pvEqStr cat i.category && pvEqStr br i.brand)).filter
          (fun i => decide (|i.age_months - age| ≤ 12)) ≠ [] := by
        intro hnil
        have hm : j0 ∈ (df.filter (fun i => pvEqStr cat i.category && pvEqStr br i.brand)).filter
            (fun i => decide (|i.age_months - age| ≤ 12)) := by
          rw [List.mem_filter]
          exact ⟨hj0mem, by simpa using hj0close⟩
        rw [hnil] at hm; cases hm
      rw [if_neg hcb, if_neg haf] at hi
      have := List.mem_filter.mp hi
      simpa using this.2
  · intro hcat
    have hcb : df.filter (fun i => pvEqStr cat i.category && pvEqStr br i.brand) = [] := by
      rw [List.filter_eq_nil_iff] at hcat ⊢
      intro a ha
      simp only [Bool.and_eq_true, not_and]
      intro hc
      exact absurd hc (by simpa using hcat a ha)
    unfold analyze_market
    rw [hmain, if_pos hcb, hcat]
    simp

/-- C6 witness: with one in-tolerance and one out-of-tolerance row the
query returns exactly the in-tolerance row (which is within 12 months), and
an empty dataset synthesizes the `asking × [0.8, 1.2]` bounds. -/
theorem c6_market_query_characterization_witness :
    find_similar_products [farItem, nearItem] (.str "Mobile") (.str "Apple") 24 12 =
      [nearItem] ∧
    |nearItem.age_months - 24| ≤ 12 ∧
    analyze_market [] (.str "Mobile") (.str "Apple") (.str "Mumbai") 5 1000 =
      { similar_items := [], avg_price := 1000, min_price := 1000 * (8/10),
        max_price := 1000 * (12/10),
        depreciation_rate := depreciationRateOf (.str "Mobile") * 100,
        brand_multiplier := brandMultiplierOf (.str "Apple"),
        location_multiplier := locationMultiplierOf (.str "Mumbai") } := by
  have h := (c6_market_query_characterization [farItem, nearItem] (.str "Mobile")
    (.str "Apple") (.str "X") 24 1000).1
  have hfind : find_similar_products [farItem, nearItem] (.str "Mobile") (.str "Apple")
      24 12 = [nearItem] := by
    rw [h]
    simp [farItem, nearItem, pvEqStr]
    norm_num
  refine ⟨hfind, ?_, ?_⟩
  · exact (c6_market_query_characterization [farItem, nearItem] (.str "Mobile")
      (.str "Apple") (.str "X") 24 1000).2.1
      ⟨nearItem, by simp [farItem, nearItem, pvEqStr], by simp [nearItem]; norm_num⟩
      nearItem (by rw [hfind]; simp)
  · exact (c6_market_query_characterization [] (.str "Mobile") (.str "Apple")
      (.str "Mumbai") 5 1000).2.2 (by simp)

end ResellPut
